import Mathlib

/-!
Verification of the manufacturing-process-flow simulation engines
(`simulation/scada_sim.py` and `simulation/job_shop.py`).

The Python code is shallowly embedded: machine floats become `ℚ`,
`datetime` values become day numbers (`ℕ`, with day 0 = the simulation
start date), random draws become explicit streams of realized values
(one stream per call site of the seeded generators constructed in
`__init__`), and the transcendental library functions (`math.sin`,
`math.log`, `math.sqrt`) become fields of an explicit `Transcend`
parameter, since every claim under study holds for (or is refuted at)
arbitrary realizations of those functions.
-/

/-! ### Python numeric helpers

`round(x, n)` in Python rounds half to even; `int(x)` truncates toward
zero.  Both are modelled over `ℚ`. -/

/-- Python `round` to an integer: round half to even. -/
def pyRoundHE (q : ℚ) : ℤ :=
  if q - ⌊q⌋ < 1/2 then ⌊q⌋
  else if 1/2 < q - ⌊q⌋ then ⌊q⌋ + 1
  else if ⌊q⌋ % 2 = 0 then ⌊q⌋ else ⌊q⌋ + 1

/-- Python `round(x, d)`: scale by `10^d`, round half to even, scale back. -/
def pyRoundAt (scale : ℕ) (q : ℚ) : ℚ :=
  (pyRoundHE (q * scale) : ℚ) / scale

/-- Python `round(x, 3)`. -/
def pyRound3 (q : ℚ) : ℚ := pyRoundAt 1000 q

/-- Python `round(x, 2)`. -/
def pyRound2 (q : ℚ) : ℚ := pyRoundAt 100 q

/-- Python `round(x, 1)`. -/
def pyRound1 (q : ℚ) : ℚ := pyRoundAt 10 q

/-- Python `int(x)`: truncation toward zero. -/
def pyInt (q : ℚ) : ℤ := if 0 ≤ q then ⌊q⌋ else ⌈q⌉

theorem pyRoundHE_le {x : ℚ} {n : ℤ} (h : x ≤ n) : pyRoundHE x ≤ n := by
  have hfl : ⌊x⌋ ≤ n := by
    have h1 := Int.floor_mono h
    simpa using h1
  have hup : ⌊x⌋ = n → x - ⌊x⌋ ≤ 0 := by
    intro hn
    have hx : x ≤ (⌊x⌋ : ℚ) := by rw [hn]; exact_mod_cast h
    linarith
  unfold pyRoundHE
  split_ifs with h1 h2 h3
  · exact hfl
  · by_cases hn : ⌊x⌋ = n
    · exact absurd (hup hn) (by linarith)
    · omega
  · exact hfl
  · by_cases hn : ⌊x⌋ = n
    · push_neg at h1
      exact absurd (hup hn) (by linarith)
    · omega

theorem le_pyRoundHE {x : ℚ} {n : ℤ} (h : (n : ℚ) ≤ x) : n ≤ pyRoundHE x := by
  have hfl : n ≤ ⌊x⌋ := Int.le_floor.mpr h
  unfold pyRoundHE
  split_ifs <;> omega

theorem pyRoundAt_le {s : ℕ} {x : ℚ} {n : ℤ} (hs : 0 < s) (h : x ≤ (n : ℚ) / s) :
    pyRoundAt s x ≤ (n : ℚ) / s := by
  have hs' : (0 : ℚ) < s := by exact_mod_cast hs
  have hx : x * s ≤ (n : ℚ) := by
    have h2 := mul_le_mul_of_nonneg_right h (le_of_lt hs')
    rwa [div_mul_cancel₀ _ (ne_of_gt hs')] at h2
  have h3 : pyRoundHE (x * s) ≤ n := pyRoundHE_le hx
  unfold pyRoundAt
  gcongr

theorem le_pyRoundAt {s : ℕ} {x : ℚ} {n : ℤ} (hs : 0 < s) (h : (n : ℚ) / s ≤ x) :
    (n : ℚ) / s ≤ pyRoundAt s x := by
  have hs' : (0 : ℚ) < s := by exact_mod_cast hs
  have hx : (n : ℚ) ≤ x * s := by
    have h2 := mul_le_mul_of_nonneg_right h (le_of_lt hs')
    rwa [div_mul_cancel₀ _ (ne_of_gt hs')] at h2
  have h3 : n ≤ pyRoundHE (x * s) := le_pyRoundHE hx
  unfold pyRoundAt
  gcongr

theorem pyInt_le {x : ℚ} {n : ℤ} (hx : 0 ≤ x) (h : x ≤ n) : pyInt x ≤ n := by
  unfold pyInt
  rw [if_pos hx]
  have h1 := Int.floor_mono h
  simpa using h1

/-! ### SCADA simulator: calendar

`SIM_START = 2024-04-01` (a Monday) is day 0; `SIM_END = 2024-09-30` is
day 182.  `weekday d = d % 7` with `0 = Monday`, so a day is a working
day exactly when `d % 7 < 5` (this matches `pd.bdate_range` and
`datetime.weekday()` for this window). -/

/-- `SIM_END` as a day number (2024-09-30 is 182 days after 2024-04-01). -/
def simEndDay : ℕ := 182

/-- Python `date.weekday() < 5` (Monday–Friday) for a day number. -/
def isWorkday (d : ℕ) : Bool := d % 7 < 5

/-- `pd.bdate_range(SIM_START, SIM_END)` as day numbers. -/
def scadaWorkdays : List ℕ := (List.range (simEndDay + 1)).filter (fun d => isWorkday d)

/-- Calendar month of a scada day number (the window spans April–September 2024). -/
def monthOfDay (d : ℕ) : ℕ :=
  if d < 30 then 4
  else if d < 61 then 5
  else if d < 91 then 6
  else if d < 122 then 7
  else if d < 153 then 8
  else 9

/-- `dt.timetuple().tm_yday` for a scada day number (2024-04-01 is day-of-year 92). -/
def dayOfYear (d : ℕ) : ℕ := 92 + d

/-- `ScadaSimulator._demand_multiplier`: Q4 surge in September/October. -/
def demandMultiplier (d : ℕ) : ℚ := if monthOfDay d = 9 ∨ monthOfDay d = 10 then 13/10 else 1

/-- `ScadaSimulator._shift_for_hour`. -/
def shiftForHour (hour : ℕ) : String :=
  if 6 ≤ hour ∧ hour < 14 then "Day"
  else if 14 ≤ hour ∧ hour < 22 then "Swing"
  else "Night"

/-- `SHIFTS[shift]["noise_mult"]`. -/
def shiftNoiseMult (shift : String) : ℚ :=
  if shift = "Day" then 1 else if shift = "Swing" then 108/100 else 118/100

/-- `SHIFTS[shift]["efficiency"]`. -/
def shiftEfficiency (shift : String) : ℚ :=
  if shift = "Day" then 1 else if shift = "Swing" then 97/100 else 93/100

/-! ### SCADA simulator: catalog constants -/

/-- Distribution tag of a sensor (`"dist"` field in `SENSOR_MAP`). -/
inductive NoiseDist where
  | gaussian
  | lognormalD
  | poissonD
deriving DecidableEq, Repr

/-- One entry of `SENSOR_MAP`. -/
structure SensorSpec where
  name : String
  unit : String
  baseline : ℚ
  noiseStd : ℚ
  dist : NoiseDist
  alarmLo : Option ℚ
  alarmHi : Option ℚ
  degrade : ℚ
deriving DecidableEq, Repr

/-- `SENSOR_MAP`, station by station, with the exact source constants. -/
def sensorMap : List (String × List SensorSpec) :=
  [("STN-01",
    [⟨"spindle_speed", "RPM", 8000, 120, .gaussian, some 7200, some 8800, 0⟩,
     ⟨"spindle_vibration", "mm/s", 21/10, 15/100, .lognormalD, none, some (45/10), 8/100⟩,
     ⟨"coolant_temp", "°C", 22, 12/10, .gaussian, some 15, some 35, 0⟩,
     ⟨"tool_wear_index", "%", 5, 5/10, .gaussian, none, some 85, 28/10⟩,
     ⟨"cutting_force", "N", 450, 30, .gaussian, some 200, some 700, 3⟩]),
   ("STN-02",
    [⟨"solder_temp", "°C", 245, 3, .gaussian, some 230, some 260, 0⟩,
     ⟨"placement_accuracy", "mm", 5/100, 8/1000, .gaussian, none, some (10/100), 2/1000⟩,
     ⟨"board_voltage", "V", 330/100, 2/100, .gaussian, some (310/100), some (350/100), 0⟩,
     ⟨"ambient_temp", "°C", 23, 8/10, .gaussian, some 18, some 28, 0⟩]),
   ("STN-03",
    [⟨"winding_torque", "Nm", 18/10, 12/100, .gaussian, some (12/10), some (25/10), 15/1000⟩,
     ⟨"insulation_resistance", "MΩ", 500, 20, .gaussian, some 200, none, -3⟩,
     ⟨"motor_current", "A", 25/10, 15/100, .gaussian, none, some 4, 2/100⟩,
     ⟨"coil_temp", "°C", 55, 25/10, .gaussian, none, some 85, 3/10⟩]),
   ("STN-04",
    [⟨"joint_torque", "Nm", 12, 8/10, .gaussian, some 8, some 18, 5/100⟩,
     ⟨"positional_accuracy", "mm", 2/100, 4/1000, .gaussian, none, some (8/100), 1/1000⟩,
     ⟨"fastener_torque", "Nm", 55/10, 3/10, .gaussian, some 4, some 7, 0⟩,
     ⟨"vibration", "mm/s", 15/10, 10/100, .lognormalD, none, some (35/10), 6/100⟩]),
   ("STN-05",
    [⟨"particle_count", "p/m³", 3500, 400, .poissonD, none, some 10000, 0⟩,
     ⟨"humidity", "%RH", 42, 3, .gaussian, some 30, some 55, 0⟩,
     ⟨"cleanroom_temp", "°C", 21, 5/10, .gaussian, some 19, some 23, 0⟩,
     ⟨"glove_integrity", "score", 98, 1, .gaussian, some 90, none, -4/10⟩]),
   ("STN-06",
    [⟨"repeatability_error", "mm", 1/100, 3/1000, .gaussian, none, some (5/100), 0⟩,
     ⟨"force_feedback", "N", 2, 1/10, .gaussian, some 1, some (35/10), 0⟩,
     ⟨"control_latency", "ms", 8, 5/10, .lognormalD, none, some 20, 0⟩,
     ⟨"system_voltage", "V", 48, 3/10, .gaussian, some 44, some 52, 0⟩])]

/-- One entry of `STATIONS`. -/
structure StationSpec where
  stationId : String
  position : ℕ
  numMachines : ℕ
  cycleTimeMean : ℚ
  cycleTimeStd : ℚ
  baseDefectRate : ℚ
deriving DecidableEq, Repr

/-- `STATIONS` (names/descriptions omitted; they carry no logic). -/
def scadaStations : List StationSpec :=
  [⟨"STN-01", 1, 3, 45, 4, 2/100⟩,
   ⟨"STN-02", 2, 2, 35, 3, 3/100⟩,
   ⟨"STN-03", 3, 2, 50, 5, 25/1000⟩,
   ⟨"STN-04", 4, 1, 65, 8, 35/1000⟩,
   ⟨"STN-05", 5, 2, 40, 3, 3/100⟩,
   ⟨"STN-06", 6, 2, 30, 2, 15/1000⟩]

/-- One entry of `PRODUCTS`. -/
structure ScadaProduct where
  productId : String
  complexity : ℚ
  unitMaterialCost : ℚ
deriving DecidableEq, Repr

/-- `PRODUCTS`. -/
def scadaProducts : List ScadaProduct :=
  [⟨"RA-100", 1, 1200⟩, ⟨"RA-200", 115/100, 1450⟩, ⟨"RA-300", 130/100, 1800⟩]

/-! ### Abstract randomness and transcendental functions

Each use of the two generators seeded in `ScadaSimulator.__init__`
(`np.random.default_rng(seed)` and `random.seed(seed)`) is modelled as a
stream of realized draw values, one stream per call site, indexed by the
loop coordinates at which the source consumes the draw.  `Transcend`
carries the mathematical library functions; `sin2pi x` stands for
`math.sin(2 * math.pi * x)`. -/

/-- Realized values of the distribution draws used by `_generate_sensor_value`. -/
structure Oracle where
  normalDraw : ℚ → ℚ → ℚ
  lognormalDraw : ℚ → ℚ → ℚ
  poissonDraw : ℚ → ℚ

/-- Rational models of `math.sin` (via `sin2pi`), `math.log`, `math.sqrt`. -/
structure Transcend where
  sin2pi : ℚ → ℚ
  logq : ℚ → ℚ
  sqrtq : ℚ → ℚ

/-- `ScadaSimulator._seasonal_temp_offset`. -/
def seasonalTempOffset (tr : Transcend) (d : ℕ) : ℚ :=
  4 * tr.sin2pi (((dayOfYear d : ℚ) - 80) / 365)

/-- `ScadaSimulator._seasonal_humidity_offset`. -/
def seasonalHumidityOffset (tr : Transcend) (d : ℕ) : ℚ :=
  10 * tr.sin2pi (((dayOfYear d : ℚ) - 80) / 365)

/-- `ScadaSimulator._daily_thermal_cycle`. -/
def dailyThermalCycle (tr : Transcend) (hour : ℕ) : ℚ :=
  3/2 * tr.sin2pi (((hour : ℚ) - 6) / 24)

/-! ### SCADA: maintenance schedule and latent state -/

/-- Loop body of `ScadaSimulator._schedule_maintenance` for one station.
`draws i` is the realized value of the `i`-th `rng.integers` call for this
station (the source draws the first offset from `[14, 22)` and each
subsequent step from `[18, 25)`).  Weekend candidates are skipped, the
cursor always advances.  Fuel bounds the loop; `200` exceeds the number
of iterations any in-range draw sequence can make before passing
`SIM_END`. -/
def scheduleAux (draws : ℕ → ℕ) : ℕ → ℕ → ℕ → List ℕ
  | 0, _, _ => []
  | fuel + 1, cursor, i =>
    if cursor ≤ simEndDay then
      (if isWorkday cursor then [cursor] else []) ++
        scheduleAux draws fuel (cursor + draws i) (i + 1)
    else []

/-- `ScadaSimulator._schedule_maintenance`, one station's date list. -/
def scheduleDates (draws : ℕ → ℕ) : List ℕ :=
  scheduleAux draws 200 (draws 0) 1

/-- `ScadaSimulator._days_since_last_maintenance`.  Day numbers start at
the simulation start, so the no-maintenance-yet branch
`(current_date - SIM_START).days` is just `t`. -/
def daysSinceLastMaintenance (dates : List ℕ) (t : ℕ) : ℕ :=
  let past := dates.filter (fun d => d ≤ t)
  if past.isEmpty then t else t - past.foldl max 0

/-! ### SCADA: the 7-layer sensor value -/

/-- Effective noise scale of `_generate_sensor_value`: shift, rush and
bottleneck multipliers applied to `noise_std` in source order. -/
def effectiveStd (spec : SensorSpec) (stationId : String) (shift : String)
    (isRush : Bool) : ℚ :=
  let e := spec.noiseStd * shiftNoiseMult shift
  let e := if isRush then e * 135/100 else e
  if stationId = "STN-04" then e * 115/100 else e

/-- Layer 1 of `_generate_sensor_value`: the distribution-specific noise
term.  For `lognormal` the code derives `(mu_ln, sigma_ln)` from the
effective std and draws once; for `poisson` it draws at the *baseline*
rate and multiplies the deviation by the shift multiplier afterwards. -/
def noiseTermOf (tr : Transcend) (o : Oracle) (spec : SensorSpec)
    (stationId : String) (shift : String) (isRush : Bool) : ℚ :=
  let effStd := effectiveStd spec stationId shift isRush
  match spec.dist with
  | .gaussian => o.normalDraw 0 effStd
  | .lognormalD =>
    let sigmaLn := tr.sqrtq (tr.logq (1 + (effStd / spec.baseline) ^ 2))
    let muLn := tr.logq spec.baseline - sigmaLn ^ 2 / 2
    o.lognormalDraw muLn sigmaLn - spec.baseline
  | .poissonD => (o.poissonDraw spec.baseline - spec.baseline) * shiftNoiseMult shift

/-- Substring test on character lists. -/
def hasSubstr (needle : List Char) : List Char → Bool
  | [] => needle.isEmpty
  | c :: t => needle.isPrefixOf (c :: t) || hasSubstr needle t

/-- `"temp" in name` (Python substring test). -/
def nameHasTemp (n : String) : Bool := hasSubstr "temp".data n.data

/-- Layer 7 seasonal offset selection of `_generate_sensor_value`. -/
def seasonalOf (tr : Transcend) (spec : SensorSpec) (d : ℕ) : ℚ :=
  if nameHasTemp spec.name ∨ spec.name = "coil_temp" then seasonalTempOffset tr d
  else if spec.name = "humidity" then seasonalHumidityOffset tr d
  else if spec.name = "particle_count" then seasonalHumidityOffset tr d * 50
  else 0

/-- Layer 7 daily thermal offset selection of `_generate_sensor_value`. -/
def dailyOf (tr : Transcend) (spec : SensorSpec) (hour : ℕ) : ℚ :=
  if nameHasTemp spec.name ∨ spec.name = "coil_temp" then dailyThermalCycle tr hour
  else 0

/-- Units floored at zero by the physical clamp of `_generate_sensor_value`. -/
def nonNegClampUnits : List String := ["mm/s", "mm", "ms", "N", "A", "Nm", "RPM", "p/m³"]

/-- Physical clamp block of `_generate_sensor_value`. -/
def clampValue (unit : String) (v : ℚ) : ℚ :=
  if unit = "%" then max 0 (min 100 v)
  else if unit = "%RH" then max 15 (min 85 v)
  else if unit ∈ nonNegClampUnits then max 0 v
  else v

/-- `ScadaSimulator._generate_sensor_value`. -/
def generateSensorValue (tr : Transcend) (o : Oracle) (spec : SensorSpec)
    (stationId : String) (day hour : ℕ) (shift : String) (isRush : Bool)
    (maintDates : List ℕ) : ℚ :=
  let noise := noiseTermOf tr o spec stationId shift isRush
  let daysSinceMaint := daysSinceLastMaintenance maintDates day
  let degradation := spec.degrade * daysSinceMaint
  let seasonal := seasonalOf tr spec day
  let daily := dailyOf tr spec hour
  let value := spec.baseline + degradation + seasonal + daily + noise
  pyRound3 (clampValue spec.unit value)

/-! ### SCADA: orders -/

/-- One order produced by `ScadaSimulator._generate_orders`. -/
structure ScadaOrder where
  orderId : ℕ
  date : ℕ
  productId : String
  complexity : ℚ
  priority : String
  unitMaterialCost : ℚ
deriving DecidableEq, Repr

/-- Priority classes drawn by `random.choices` in `_generate_orders`. -/
def priorityChoices : List String := ["Standard", "Rush", "Critical"]

/-- Fallback product used to totalize list indexing (never reached: all
picks are reduced modulo the list length). -/
def scadaProduct0 : ScadaProduct := ⟨"RA-100", 1, 1200⟩

/-- `ScadaSimulator._generate_orders`.  `countDraw di` is the realized
`rng.integers(-1, 3)` for the `di`-th workday; `productPick`/`priorityPick`
give the index selected by `random.choices` for each unit of each day. -/
def scadaGenerateOrders (countDraw : ℕ → ℤ) (productPick priorityPick : ℕ → ℕ → ℕ) :
    List ScadaOrder :=
  ((scadaWorkdays.enum.flatMap (fun di_day =>
    let di := di_day.1
    let day := di_day.2
    let count := (max 4 (pyInt (8 * demandMultiplier day + (countDraw di : ℚ)))).toNat
    (List.range count).map (fun u =>
      let product := scadaProducts.getD (productPick di u % scadaProducts.length) scadaProduct0
      let priority := priorityChoices.getD (priorityPick di u % priorityChoices.length) "Standard"
      ({ orderId := 0, date := day, productId := product.productId,
         complexity := product.complexity, priority := priority,
         unitMaterialCost := product.unitMaterialCost } : ScadaOrder)))).enum).map
    (fun ir => { ir.2 with orderId := ir.1 + 1 })

/-! ### SCADA: production and quality outcomes -/

/-- Defect-rate composition in `ScadaSimulator._build_fact_production`
before the degradation factor: base rate × shift penalty × rush penalty ×
cleanroom-humidity penalty (the source's successive `*=` steps). -/
def scadaDefectRateBase (tr : Transcend) (stn : StationSpec) (shift : String)
    (isRush : Bool) (day : ℕ) : ℚ :=
  let r := stn.baseDefectRate
  let r := r * (1 / shiftEfficiency shift)
  let r := if isRush then r * 18/10 else r
  if stn.stationId = "STN-05" then
    let humidity := 42 + seasonalHumidityOffset tr day
    if humidity > 55 then r * 25/10
    else if humidity > 50 then r * 15/10
    else r
  else r

/-- Full defect rate of `_build_fact_production`, compared against the
uniform draw: the base composition times `(1 + days_maint * 0.008)`. -/
def scadaDefectRate (tr : Transcend) (stn : StationSpec) (shift : String)
    (isRush : Bool) (day : ℕ) (daysMaint : ℕ) : ℚ :=
  scadaDefectRateBase tr stn shift isRush day * (1 + (daysMaint : ℚ) * 8/1000)

/-- `OPERATORS` ids grouped by primary shift (`operator_by_shift`). -/
def operatorsByShift (shift : String) : List String :=
  if shift = "Day" then ["OPR-01", "OPR-02", "OPR-03", "OPR-04"]
  else if shift = "Swing" then ["OPR-05", "OPR-06", "OPR-07", "OPR-08"]
  else ["OPR-09", "OPR-10", "OPR-11", "OPR-12"]

/-- One row of scada `fact_production`. -/
structure ScadaProdRec where
  productionId : ℕ
  orderId : ℕ
  productId : String
  stationId : String
  operatorId : String
  date : ℕ
  shift : String
  priority : String
  cycleTime : ℚ
  queueTime : ℚ
  setupTime : ℚ
  totalTime : ℚ
  machineCost : ℚ
  laborCost : ℚ
  materialCost : ℚ
  qualityResult : String
deriving DecidableEq, Repr

/-- Realized per-row draws consumed by `_build_fact_production`, indexed
by (order index, station index); the per-order shift pick is indexed by
the order index alone, matching where the source draws it. -/
structure ScadaProdStreams where
  shiftPick : ℕ → ℕ
  cycleDraw : ℕ → ℕ → ℚ → ℚ → ℚ
  queueDraw : ℕ → ℕ → ℚ → ℚ
  setupDraw : ℕ → ℕ → ℚ
  opPick : ℕ → ℕ → ℕ
  passDraw : ℕ → ℕ → ℚ

/-- Shift classes drawn per order in `_build_fact_production`. -/
def prodShiftChoices : List String := ["Day", "Swing", "Night"]

/-- Row body of `ScadaSimulator._build_fact_production` for one
(order, station) pair; the dense `production_id` is assigned afterwards. -/
def scadaProdRow (tr : Transcend) (ps : ScadaProdStreams) (maint : String → List ℕ)
    (oi : ℕ) (o : ScadaOrder) (si : ℕ) (stn : StationSpec) : ScadaProdRec :=
  let shift := prodShiftChoices.getD (ps.shiftPick oi % prodShiftChoices.length) "Day"
  let isRush := o.priority = "Rush" ∨ o.priority = "Critical"
  let cycleMean := stn.cycleTimeMean * o.complexity
  let cycleStd := stn.cycleTimeStd
  let cycleMean := if isRush then cycleMean * 82/100 else cycleMean
  let cycleStd := if isRush then cycleStd * 140/100 else cycleStd
  let queueMean : ℚ := if stn.stationId = "STN-04" then 25 else if stn.position = 5 then 3 else 5
  let cycleTime := max (cycleMean * 1/2) (ps.cycleDraw oi si cycleMean cycleStd)
  let queueTime := max 0 (ps.queueDraw oi si queueMean)
  let setupTime := max 2 (ps.setupDraw oi si)
  let availableOps := operatorsByShift shift
  let operatorId := availableOps.getD (ps.opPick oi si % availableOps.length) "OPR-01"
  let daysMaint := daysSinceLastMaintenance (maint stn.stationId) o.date
  let defectRate := scadaDefectRate tr stn shift isRush o.date daysMaint
  let passed := ps.passDraw oi si > defectRate
  let machineCost := pyRound2 (cycleTime / 60 * (50 + stn.position * 10))
  let laborCost := pyRound2 (cycleTime / 60 * 38)
  { productionId := 0, orderId := o.orderId, productId := o.productId,
    stationId := stn.stationId, operatorId := operatorId, date := o.date,
    shift := shift, priority := o.priority,
    cycleTime := pyRound1 cycleTime, queueTime := pyRound1 queueTime,
    setupTime := pyRound1 setupTime,
    totalTime := pyRound1 (cycleTime + queueTime + setupTime),
    machineCost := machineCost, laborCost := laborCost,
    materialCost := pyRound2 (o.unitMaterialCost / scadaStations.length),
    qualityResult := if passed then "Pass" else "Fail" }

/-- `ScadaSimulator._build_fact_production`: one row per order per
station, with dense ids `1, 2, …` in loop order. -/
def scadaBuildFactProduction (tr : Transcend) (ps : ScadaProdStreams)
    (maint : String → List ℕ) (orders : List ScadaOrder) : List ScadaProdRec :=
  ((orders.enum.flatMap (fun oo =>
    scadaStations.enum.map (fun ss =>
      scadaProdRow tr ps maint oo.1 oo.2 ss.1 ss.2))).enum).map
    (fun ir => { ir.2 with productionId := ir.1 + 1 })

/-! ### SCADA: quality events -/

/-- `defect_types_by_station` in `_build_fact_quality_events`. -/
def defectTypesByStation (stationId : String) : List String :=
  if stationId = "STN-01" then ["Dimensional Out-of-Spec", "Surface Finish Defect", "Tool Mark", "Burr"]
  else if stationId = "STN-02" then ["Solder Bridge", "Cold Joint", "Component Misalignment", "Tombstoning"]
  else if stationId = "STN-03" then ["Winding Short", "Insulation Failure", "Torque Out-of-Spec", "Bearing Noise"]
  else if stationId = "STN-04" then ["Joint Misalignment", "Fastener Under-Torque", "Wiring Error", "Clearance Violation"]
  else if stationId = "STN-05" then ["Particulate Contamination", "Seal Failure", "Moisture Ingress", "Label Defect"]
  else if stationId = "STN-06" then ["Accuracy Out-of-Spec", "Latency Exceeded", "Force Feedback Error", "Calibration Drift"]
  else ["Unknown"]

/-- `root_causes_by_station` in `_build_fact_quality_events`. -/
def rootCausesByStation (stationId : String) : List String :=
  if stationId = "STN-01" then ["Tool Wear", "Vibration", "Coolant Failure", "Material Variation"]
  else if stationId = "STN-02" then ["Solder Temp Drift", "Placement Error", "Component Defect", "Ambient Temp"]
  else if stationId = "STN-03" then ["Winding Tension", "Insulation Degradation", "Motor Overload", "Process Drift"]
  else if stationId = "STN-04" then ["Operator Error", "Fixture Misalignment", "Component Tolerance Stack", "Fatigue"]
  else if stationId = "STN-05" then ["Humidity Excursion", "Filter Degradation", "Glove Breach", "HVAC Failure"]
  else if stationId = "STN-06" then ["Sensor Calibration", "Software Bug", "Electrical Noise", "Mechanical Wear"]
  else ["Unknown"]

/-- Severity classes of `_build_fact_quality_events`. -/
def severityChoices : List String := ["Minor", "Major", "Critical"]

/-- `disposition_map` of `_build_fact_quality_events` (options per severity). -/
def dispositionOptions (severity : String) : List String :=
  if severity = "Minor" then ["Rework", "Use-As-Is", "Scrap"]
  else if severity = "Major" then ["Rework", "Scrap", "Use-As-Is"]
  else ["Scrap", "Rework", "Use-As-Is"]

/-- One row of scada `fact_quality_events`. -/
structure ScadaQualityEvent where
  qualityEventId : ℕ
  productionId : ℕ
  orderId : ℕ
  productId : String
  stationId : String
  operatorId : String
  date : ℕ
  shift : String
  defectType : String
  severity : String
  disposition : String
  rootCause : String
  reworkCost : ℚ
  scrapCost : ℚ
  totalQualityCost : ℚ
  correctiveAction : Bool
deriving DecidableEq, Repr

/-- Realized draws consumed per failed row by `_build_fact_quality_events`,
indexed by the dense quality-event counter. -/
structure ScadaQualityStreams where
  sevPick : ℕ → ℕ
  dispPick : ℕ → ℕ
  defectPick : ℕ → ℕ
  rootPick : ℕ → ℕ
  reworkDraw : ℕ → ℚ
  scrapDraw : ℕ → ℚ
  caPick : ℕ → Bool

/-- `ScadaSimulator._build_fact_quality_events`: one event per production
row whose `quality_result` is `"Fail"`, copying the parent's keys. -/
def scadaBuildFactQualityEvents (qs : ScadaQualityStreams)
    (prods : List ScadaProdRec) : List ScadaQualityEvent :=
  ((prods.filter (fun p => p.qualityResult = "Fail")).enum).map (fun ip =>
    let i := ip.1
    let p := ip.2
    let severity := severityChoices.getD (qs.sevPick i % severityChoices.length) "Minor"
    let opts := dispositionOptions severity
    let disposition := opts.getD (qs.dispPick i % opts.length) "Rework"
    let reworkCost := if disposition = "Rework" then pyRound2 (qs.reworkDraw i) else 0
    let scrapCost := if disposition = "Scrap" then pyRound2 (p.materialCost * qs.scrapDraw i) else 0
    { qualityEventId := i + 1, productionId := p.productionId, orderId := p.orderId,
      productId := p.productId, stationId := p.stationId, operatorId := p.operatorId,
      date := p.date, shift := p.shift,
      defectType := (defectTypesByStation p.stationId).getD
        (qs.defectPick i % (defectTypesByStation p.stationId).length) "Unknown",
      severity := severity, disposition := disposition,
      rootCause := (rootCausesByStation p.stationId).getD
        (qs.rootPick i % (rootCausesByStation p.stationId).length) "Unknown",
      reworkCost := reworkCost, scrapCost := scrapCost,
      totalQualityCost := pyRound2 (reworkCost + scrapCost),
      correctiveAction := qs.caPick i })

/-! ### SCADA: downtime -/

/-- One entry of `DOWNTIME_CATS`. -/
structure DowntimeCat where
  catName : String
  avgHrs : ℚ
  monthlyFreq : ℚ
  scheduled : Bool
deriving DecidableEq, Repr

/-- `DOWNTIME_CATS`. -/
def scadaDowntimeCats : List DowntimeCat :=
  [⟨"Planned Maintenance", 2, 2, true⟩,
   ⟨"Unplanned Breakdown", 35/10, 8/10, false⟩,
   ⟨"Tooling Change", 5/10, 5, true⟩,
   ⟨"Material Shortage", 3, 3/10, false⟩,
   ⟨"Quality Hold", 15/10, 4/10, false⟩,
   ⟨"Calibration", 1, 1, true⟩]

/-- `self.total_months` for the Apr–Sep 2024 window. -/
def scadaTotalMonths : ℕ := 6

/-- Acceptance probability for a candidate `Unplanned Breakdown` event in
`_build_fact_downtime` (`keep_prob = min(1.0, 0.3 + days_maint * 0.04)`). -/
def breakdownKeepProb (daysMaint : ℕ) : ℚ :=
  min 1 (3/10 + (daysMaint : ℚ) * 4/100)

/-- One row of scada `fact_downtime`. -/
structure ScadaDowntimeRec where
  downtimeId : ℕ
  stationId : String
  date : ℕ
  startHour : ℕ
  shift : String
  downtimeCategory : String
  isScheduled : Bool
  durationHours : ℚ
  lostProductionCost : ℚ
  repairCost : ℚ
  totalDowntimeCost : ℚ
deriving DecidableEq, Repr

/-- Realized draws of `_build_fact_downtime`, indexed by (station index,
category index) for the Poisson count and additionally by the candidate
index for the per-event draws. -/
structure ScadaDowntimeStreams where
  countDraw : ℕ → ℕ → ℚ → ℕ
  dayDraw : ℕ → ℕ → ℕ → ℚ
  keepDraw : ℕ → ℕ → ℕ → ℚ
  durDraw : ℕ → ℕ → ℕ → ℚ
  hourDraw : ℕ → ℕ → ℕ → ℕ
  repairDraw : ℕ → ℕ → ℕ → ℚ

/-- `ScadaSimulator._build_fact_downtime`: Poisson-many candidates per
(station, category); weekend candidates are dropped, and unplanned
breakdown candidates are additionally kept only when the uniform draw
does not exceed `breakdownKeepProb` of the degradation at that date. -/
def scadaBuildFactDowntime (ds : ScadaDowntimeStreams) (maint : String → List ℕ) :
    List ScadaDowntimeRec :=
  ((scadaStations.enum.flatMap (fun ss =>
    let si := ss.1
    let stn := ss.2
    scadaDowntimeCats.enum.flatMap (fun cc =>
      let ci := cc.1
      let cat := cc.2
      let freq := if stn.stationId = "STN-04" ∧ cat.catName = "Unplanned Breakdown"
        then cat.monthlyFreq * 16/10 else cat.monthlyFreq
      let nEvents := ds.countDraw si ci (freq * scadaTotalMonths)
      (List.range nEvents).filterMap (fun k =>
        let dayOffset := (pyInt (ds.dayDraw si ci k)).toNat
        if ¬ isWorkday dayOffset then (none : Option ScadaDowntimeRec)
        else
          let daysMaint := daysSinceLastMaintenance (maint stn.stationId) dayOffset
          if cat.catName = "Unplanned Breakdown" ∧ ds.keepDraw si ci k > breakdownKeepProb daysMaint then none
          else
            let duration := max (1/4) (ds.durDraw si ci k)
            let hour := ds.hourDraw si ci k
            let hourlyCost : ℚ := 50 + stn.position * 10
            let lostProdCost := pyRound2 (duration * hourlyCost)
            let repairCost := if ¬ cat.scheduled then pyRound2 (ds.repairDraw si ci k) else 0
            some { downtimeId := 0, stationId := stn.stationId, date := dayOffset,
                   startHour := hour, shift := shiftForHour hour,
                   downtimeCategory := cat.catName, isScheduled := cat.scheduled,
                   durationHours := pyRound2 duration,
                   lostProductionCost := lostProdCost, repairCost := repairCost,
                   totalDowntimeCost := pyRound2 (lostProdCost + repairCost) })))).enum).map
    (fun ir => { ir.2 with downtimeId := ir.1 + 1 })

/-! ### SCADA: sensor readings and alarms -/

/-- One row of scada `fact_sensor_readings`.  `tsDay/tsHour/tsMinute` are
the timestamp; `date` is the workday under which the row is generated
(night-shift rows keep the preceding workday's date, as in the source). -/
structure Reading where
  tsDay : ℕ
  tsHour : ℕ
  tsMinute : ℕ
  date : ℕ
  stationId : String
  sensorId : ℕ
  sensorName : String
  value : ℚ
  unit : String
  shift : String
deriving DecidableEq, Repr

/-- `SENSOR_MAP` flattened in iteration order, paired with the dense
`SNS-xxx` sensor ids (here the numeric part). -/
def flatSensors : List (ℕ × String × SensorSpec) :=
  ((sensorMap.flatMap (fun st => st.2.map (fun sp => (st.1, sp)))).enum).map
    (fun ip => (ip.1 + 1, ip.2.1, ip.2.2))

/-- Sensors (with ids) of one station. -/
def stationSensors (stationId : String) : List (ℕ × SensorSpec) :=
  flatSensors.filterMap (fun t => if t.2.1 = stationId then some (t.1, t.2.2) else none)

/-- Whether a workday has any rush/critical order (`rush_days` lookup in
`_build_fact_sensor_readings`; rush orders stress all stations). -/
def isRushDay (orders : List ScadaOrder) (day : ℕ) : Bool :=
  orders.any (fun o => o.date = day ∧ (o.priority = "Rush" ∨ o.priority = "Critical"))

/-- `ScadaSimulator._build_fact_sensor_readings`: per workday and station,
5-minute samples over 06:00–23:55 plus a reduced night block (22:00–01:50
at 10-minute intervals, crossing into the next calendar day). -/
def scadaBuildFactSensorReadings (tr : Transcend)
    (oracleAt : String → ℕ → ℕ → ℕ → ℕ → Oracle)
    (maint : String → List ℕ) (orders : List ScadaOrder) : List Reading :=
  scadaWorkdays.flatMap (fun day =>
    let stationRush := isRushDay orders day
    (sensorMap.map (fun st => st.1)).flatMap (fun stationId =>
      let sensors := stationSensors stationId
      ((List.range' 6 18).flatMap (fun hour =>
        let shift := shiftForHour hour
        ((List.range 12).map (· * 5)).flatMap (fun minute =>
          sensors.map (fun idSp =>
            let value := generateSensorValue tr
              (oracleAt stationId idSp.1 day hour minute) idSp.2 stationId day hour
              shift stationRush (maint stationId)
            { tsDay := day, tsHour := hour, tsMinute := minute, date := day,
              stationId := stationId, sensorId := idSp.1,
              sensorName := idSp.2.name, value := value, unit := idSp.2.unit,
              shift := shift })))) ++
      ((List.range 4).flatMap (fun hourOffset =>
        let hour := (22 + hourOffset) % 24
        let nextDay := if 22 ≤ hour then day else day + 1
        ((List.range 6).map (· * 10)).flatMap (fun minute =>
          sensors.map (fun idSp =>
            let value := generateSensorValue tr
              (oracleAt stationId idSp.1 nextDay hour minute) idSp.2 stationId nextDay
              hour "Night" stationRush (maint stationId)
            { tsDay := nextDay, tsHour := hour, tsMinute := minute, date := day,
              stationId := stationId, sensorId := idSp.1,
              sensorName := idSp.2.name, value := value, unit := idSp.2.unit,
              shift := "Night" }))))))

/-- Threshold lookup of `_build_fact_alarms`: `sensor_name → (lo, hi)`,
built over all stations (sensor names are globally unique). -/
def alarmThresholds (sensorName : String) : Option ℚ × Option ℚ :=
  match flatSensors.find? (fun t => t.2.2.name = sensorName) with
  | some t => (t.2.2.alarmLo, t.2.2.alarmHi)
  | none => (none, none)

/-- One row of scada `fact_alarms`. -/
structure AlarmRec where
  alarmId : ℕ
  tsDay : ℕ
  tsHour : ℕ
  tsMinute : ℕ
  date : ℕ
  stationId : String
  sensorId : ℕ
  sensorName : String
  alarmType : String
  value : ℚ
  threshold : ℚ
  shift : String
deriving DecidableEq, Repr

/-- Per-reading breach test of `_build_fact_alarms` (the `if/elif` chain:
a low bound present and undershot wins over a high-bound overshoot). -/
def alarmOf (r : Reading) : Option AlarmRec :=
  let lo? := (alarmThresholds r.sensorName).1
  let hi? := (alarmThresholds r.sensorName).2
  let mk := fun (ty : String) (thr : ℚ) =>
    ({ alarmId := 0, tsDay := r.tsDay, tsHour := r.tsHour, tsMinute := r.tsMinute,
       date := r.date, stationId := r.stationId, sensorId := r.sensorId,
       sensorName := r.sensorName, alarmType := ty, value := r.value,
       threshold := thr, shift := r.shift } : AlarmRec)
  match lo?, hi? with
  | some lo, some hi =>
    if r.value < lo then some (mk "Low" lo)
    else if r.value > hi then some (mk "High" hi) else none
  | some lo, none => if r.value < lo then some (mk "Low" lo) else none
  | none, some hi => if r.value > hi then some (mk "High" hi) else none
  | none, none => none

/-- `ScadaSimulator._build_fact_alarms`. -/
def scadaBuildFactAlarms (readings : List Reading) : List AlarmRec :=
  ((readings.filterMap alarmOf).enum).map (fun ir => { ir.2 with alarmId := ir.1 + 1 })

/-! ### Job-shop simulator: calendar and catalog

`START_DATE = 2024-01-01` (a Monday) is day 0; `END_DATE = 2025-12-31`
is day 730. -/

/-- `(END_DATE - START_DATE).days` for the job shop. -/
def jsEndDay : ℕ := 730

/-- `pd.bdate_range(START_DATE, END_DATE)` as day numbers. -/
def jsWorkdays : List ℕ := (List.range (jsEndDay + 1)).filter (fun d => isWorkday d)

/-- `total_months` in `_build_fact_downtime` (no `+ 1` here, unlike scada). -/
def jsTotalMonths : ℕ := 23

/-- One entry of `MACHINE_SPECS`. -/
structure MachineSpec where
  mtype : String
  count : ℕ
  avgCycleMin : ℚ
  variability : ℚ
  hourlyCost : ℚ
deriving DecidableEq, Repr

/-- `MACHINE_SPECS`. -/
def jsMachineSpecs : List MachineSpec :=
  [⟨"CNC Mill", 4, 45, 15/100, 85⟩,
   ⟨"CNC Lathe", 3, 35, 12/100, 75⟩,
   ⟨"Drill Press", 3, 20, 10/100, 45⟩,
   ⟨"Surface Grinder", 2, 30, 18/100, 65⟩,
   ⟨"Assembly Station", 4, 60, 20/100, 40⟩,
   ⟨"Inspection Station", 2, 15, 8/100, 55⟩]

/-- `JobShopSimulator._department_for`. -/
def departmentFor (mtype : String) : String :=
  if mtype = "CNC Mill" ∨ mtype = "CNC Lathe" ∨ mtype = "Drill Press" then "Machining"
  else if mtype = "Surface Grinder" then "Finishing"
  else if mtype = "Assembly Station" then "Assembly"
  else if mtype = "Inspection Station" then "Quality"
  else "General"

/-- One entry of `PRODUCT_CATALOG`. -/
structure JSProduct where
  name : String
  family : String
  routing : List String
  materialCost : ℚ
  priorityWeights : List (String × ℚ)
deriving DecidableEq, Repr

/-- `PRODUCT_CATALOG`. -/
def jsProductCatalog : List JSProduct :=
  [⟨"Hydraulic Valve Body", "Hydraulic Components",
    ["CNC Mill", "Drill Press", "Surface Grinder", "Inspection Station"], 45,
    [("Standard", 60/100), ("Rush", 25/100), ("Critical", 15/100)]⟩,
   ⟨"Gear Assembly", "Drivetrain",
    ["CNC Lathe", "Surface Grinder", "Assembly Station", "Inspection Station"], 62,
    [("Standard", 70/100), ("Rush", 20/100), ("Critical", 10/100)]⟩,
   ⟨"Pump Housing", "Hydraulic Components",
    ["CNC Mill", "Drill Press", "CNC Lathe", "Inspection Station"], 38,
    [("Standard", 50/100), ("Rush", 30/100), ("Critical", 20/100)]⟩,
   ⟨"Motor Shaft", "Drivetrain",
    ["CNC Lathe", "Surface Grinder", "Inspection Station"], 28,
    [("Standard", 65/100), ("Rush", 25/100), ("Critical", 10/100)]⟩,
   ⟨"Control Panel Frame", "Electrical Enclosures",
    ["CNC Mill", "Drill Press", "Assembly Station", "Inspection Station"], 55,
    [("Standard", 55/100), ("Rush", 30/100), ("Critical", 15/100)]⟩,
   ⟨"Bearing Cap", "Drivetrain",
    ["CNC Lathe", "Drill Press", "Surface Grinder", "Inspection Station"], 18,
    [("Standard", 75/100), ("Rush", 20/100), ("Critical", 5/100)]⟩,
   ⟨"Manifold Block", "Hydraulic Components",
    ["CNC Mill", "Drill Press", "Drill Press", "Surface Grinder", "Inspection Station"], 72,
    [("Standard", 50/100), ("Rush", 30/100), ("Critical", 20/100)]⟩,
   ⟨"Sensor Bracket", "Electrical Enclosures",
    ["CNC Mill", "Drill Press", "Assembly Station", "Inspection Station"], 12,
    [("Standard", 80/100), ("Rush", 15/100), ("Critical", 5/100)]⟩]

/-- Dense `PRD-xxx` product ids in catalog order. -/
def jsProductIds : List String :=
  (List.range jsProductCatalog.length).map (fun i => "PRD-00" ++ toString (i + 1))

/-- `JobShopSimulator._product_name_from_id`. -/
def productNameFromId (pid : String) : String :=
  match (List.range jsProductCatalog.length).find?
      (fun i => jsProductIds.getD i "" = pid) with
  | some i => (jsProductCatalog.getD i ⟨"", "", [], 30, []⟩).name
  | none => ""

/-- Material cost lookup used for scrap costs in `_build_fact_quality`:
`PRODUCT_CATALOG.get(name, {}).get("material_cost", 30)`. -/
def jsMaterialCostOfName (name : String) : ℚ :=
  match jsProductCatalog.find? (fun p => p.name = name) with
  | some p => p.materialCost
  | none => 30

/-- `CUSTOMERS` as dense `CUS-xxx` ids. -/
def jsCustomerIds : List String :=
  (List.range 8).map (fun i => "CUS-00" ++ toString (i + 1))

/-- `SHIFTS` of the job shop. -/
def jsShifts : List String := ["Morning (6AM-2PM)", "Afternoon (2PM-10PM)", "Night (10PM-6AM)"]

/-- `DEFECT_TYPES`. -/
def jsDefectTypes : List String :=
  ["Dimensional Out-of-Spec", "Surface Finish Defect", "Material Defect",
   "Assembly Error", "Tool Wear Damage", "Alignment Error",
   "Contamination", "Crack/Fracture"]

/-- Keys of `DEFECT_SEVERITIES`. -/
def jsSeverities : List String := ["Minor", "Major", "Critical"]

/-- Keys of `DEFECT_DISPOSITIONS[severity]` in source order. -/
def jsDispositionOptions (severity : String) : List String :=
  if severity = "Minor" then ["Rework", "Use As-Is", "Scrap"]
  else if severity = "Major" then ["Rework", "Scrap", "Use As-Is"]
  else ["Scrap", "Rework", "Use As-Is"]

/-- Root causes drawn in `_build_fact_quality`. -/
def jsRootCauses : List String :=
  ["Tool Wear", "Operator Error", "Material Variation",
   "Machine Calibration", "Process Drift", "Environmental"]

/-- `DOWNTIME_CATEGORIES` of the job shop. -/
def jsDowntimeCats : List (String × ℚ × ℚ) :=
  [("Planned Maintenance", 2, 2),
   ("Unplanned Breakdown", 35/10, 8/10),
   ("Tooling Change", 5/10, 6),
   ("Material Shortage", 4, 3/10),
   ("Quality Hold", 15/10, 5/10),
   ("Calibration", 1, 1)]

/-- Quantity population of `rng.choice([1, 2, 5, 10, 20, 50], p=…)`. -/
def jsQuantityChoices : List ℕ := [1, 2, 5, 10, 20, 50]

/-- Priority classes of every catalog entry's `priority_weights`. -/
def jsPriorityChoices : List String := ["Standard", "Rush", "Critical"]

/-- `{"Standard": 14, "Rush": 7, "Critical": 3}` lead days. -/
def jsLeadDays (priority : String) : ℕ :=
  if priority = "Standard" then 14 else if priority = "Rush" then 7 else 3

/-! ### Job shop: dimension tables -/

/-- One row of job-shop `dim_machines`. -/
structure DimMachine where
  machineId : String
  machineName : String
  machineType : String
  machineDepartment : String
  avgCycleTimeMin : ℚ
  cycleVariabilityPct : ℚ
  hourlyOperatingCost : ℚ
  ageYears : ℚ
  conditionScore : ℚ
  installDay : ℤ
deriving DecidableEq, Repr

/-- Realized draws of `_build_dim_machines`, indexed by the dense machine
counter. -/
structure JSMachineStreams where
  ageDraw : ℕ → ℚ
  condDraw : ℕ → ℚ

/-- `JobShopSimulator._build_dim_machines`. -/
def jsBuildDimMachines (ms : JSMachineStreams) : List DimMachine :=
  ((jsMachineSpecs.flatMap (fun spec =>
    (List.range spec.count).map (fun i => (spec, i + 1)))).enum).map (fun it =>
    let mid := it.1
    let spec := it.2.1
    let i := it.2.2
    let age := pyRound1 (ms.ageDraw mid)
    { machineId := "MCH-00" ++ toString (mid + 1),
      machineName := spec.mtype ++ " #" ++ toString i,
      machineType := spec.mtype,
      machineDepartment := departmentFor spec.mtype,
      avgCycleTimeMin := spec.avgCycleMin,
      cycleVariabilityPct := spec.variability * 100,
      hourlyOperatingCost := spec.hourlyCost,
      ageYears := age,
      conditionScore := pyRound2 (max (5/10) (1 - age * 3/100 + ms.condDraw mid)),
      installDay := -(pyInt (age * 365)) })

/-- `OPERATOR_NAMES`. -/
def jsOperatorNames : List String :=
  ["Maria Santos", "James Chen", "Aisha Patel", "Robert Kowalski",
   "Yuki Tanaka", "Carlos Rivera", "Emma Johansson", "David Okafor",
   "Sarah Mitchell", "Ahmed Hassan", "Lisa Nguyen", "Michael Brown",
   "Ana Garcia", "Tomasz Nowak", "Priya Sharma", "Kevin O'Brien"]

/-- One row of job-shop `dim_operators`. -/
structure JSDimOperator where
  operatorId : String
  operatorName : String
  primaryShift : String
  hireDaysBefore : ℕ
  experienceYears : ℚ
  skillLevel : String
  certificationsCount : ℕ
  efficiencyRating : ℚ
deriving DecidableEq, Repr

/-- Realized draws of `_build_dim_operators`. -/
structure JSOperatorStreams where
  shiftPick : ℕ → ℕ
  hireDraw : ℕ → ℕ
  certDraw : ℕ → ℕ
  effDraw : ℕ → ℚ

/-- `JobShopSimulator._build_dim_operators`. -/
def jsBuildDimOperators (os : JSOperatorStreams) : List JSDimOperator :=
  (jsOperatorNames.enum).map (fun it =>
    let i := it.1
    let days := os.hireDraw i
    let exp := pyRound1 ((days : ℚ) / 365)
    { operatorId := "OPR-0" ++ (if i + 1 < 10 then "0" else "") ++ toString (i + 1),
      operatorName := it.2,
      primaryShift := jsShifts.getD (os.shiftPick i % jsShifts.length) "Morning (6AM-2PM)",
      hireDaysBefore := days,
      experienceYears := exp,
      skillLevel := if exp > 7 then "Expert" else if exp > 3 then "Advanced"
        else if exp > 1 then "Intermediate" else "Junior",
      certificationsCount := os.certDraw i,
      efficiencyRating := pyRound2 (min 1 (7/10 + exp * 3/100 + os.effDraw i)) })

/-- One row of job-shop `dim_customers`. -/
structure JSDimCustomer where
  customerId : String
  customerTier : String
  region : String
  onTimeTargetPct : ℕ
deriving DecidableEq, Repr

/-- Realized draws of `_build_dim_customers`. -/
structure JSCustomerStreams where
  tierPick : ℕ → ℕ
  regionPick : ℕ → ℕ
  targetPick : ℕ → ℕ

/-- `JobShopSimulator._build_dim_customers`. -/
def jsBuildDimCustomers (cs : JSCustomerStreams) : List JSDimCustomer :=
  (jsCustomerIds.enum).map (fun it =>
    let i := it.1
    { customerId := it.2,
      customerTier := (["Platinum", "Gold", "Silver"]).getD (cs.tierPick i % 3) "Gold",
      region := (["North America", "Europe", "Asia-Pacific"]).getD (cs.regionPick i % 3) "Europe",
      onTimeTargetPct := ([95, 97, 98, 99] : List ℕ).getD (cs.targetPick i % 4) 95 })

/-! ### Job shop: fact tables -/

/-- One row of `fact_job_orders`. -/
structure JobOrder where
  jobOrderId : ℕ
  productId : String
  productName : String
  customerId : String
  orderDate : ℕ
  dueDate : ℕ
  priority : String
  quantity : ℕ
  status : String
deriving DecidableEq, Repr

/-- Realized draws of `_build_fact_job_orders`, indexed by the job id. -/
structure JSOrderStreams where
  productPick : ℕ → ℕ
  priorityPick : ℕ → ℕ
  datePick : ℕ → ℕ
  customerPick : ℕ → ℕ
  quantityPick : ℕ → ℕ

/-- `JobShopSimulator._build_fact_job_orders`: `range(1, n_orders + 1)`
jobs (empty when `n_orders ≤ 0`; the method performs no validation). -/
def jsBuildFactJobOrders (s : JSOrderStreams) (nOrders : ℤ) : List JobOrder :=
  (List.range (max 0 nOrders).toNat).map (fun i =>
    let productName := (jsProductCatalog.map (fun p => p.name)).getD
      (s.productPick i % jsProductCatalog.length) ""
    let priority := jsPriorityChoices.getD (s.priorityPick i % jsPriorityChoices.length) "Standard"
    let orderDate := jsWorkdays.getD (s.datePick i % jsWorkdays.length) 0
    { jobOrderId := i + 1,
      productId := jsProductIds.getD (s.productPick i % jsProductCatalog.length) "",
      productName := productName,
      customerId := jsCustomerIds.getD (s.customerPick i % jsCustomerIds.length) "",
      orderDate := orderDate,
      dueDate := orderDate + jsLeadDays priority,
      priority := priority,
      quantity := jsQuantityChoices.getD (s.quantityPick i % jsQuantityChoices.length) 1,
      status := "Completed" })

/-! ### Job shop: production runs -/

/-- One row of job-shop `fact_production`.  Times are minutes since the
midnight of day 0; `date` is the calendar day of `start_time`. -/
structure JSProdRec where
  productionId : ℕ
  jobOrderId : ℕ
  productId : String
  machineId : String
  operatorId : String
  stepNumber : ℕ
  stepMachineType : String
  date : ℤ
  shift : String
  startTime : ℚ
  endTime : ℚ
  setupTime : ℚ
  cycleTime : ℚ
  queueTime : ℚ
  totalTime : ℚ
  quantityIn : ℕ
  quantityGood : ℤ
  firstPassYield : ℚ
  machineCost : ℚ
  laborCost : ℚ
deriving DecidableEq, Repr

/-- Realized draws of `_build_fact_production`, indexed by
(job order id, step number); `cycleNoise` takes the standard deviation
`base_cycle * variability` the source passes to `rng.normal`. -/
structure JSProdStreams where
  startDraw : ℕ → ℚ
  machPick : ℕ → ℕ → ℕ
  opPick : ℕ → ℕ → ℕ
  cycleNoise : ℕ → ℕ → ℚ → ℚ
  queueDraw : ℕ → ℕ → ℚ
  setupDraw : ℕ → ℕ → ℚ
  fpyDraw : ℕ → ℕ → ℚ
  gapDraw : ℕ → ℕ → ℚ

/-- `MACHINE_SPECS[machine_type]` lookup. -/
def jsMachineSpecOf (mtype : String) : MachineSpec :=
  (jsMachineSpecs.find? (fun m => m.mtype = mtype)).getD ⟨mtype, 0, 0, 0, 0⟩

/-- Shift classification by start hour in `_build_fact_production`. -/
def jsShiftOfHour (hour : ℤ) : String :=
  if 6 ≤ hour ∧ hour < 14 then "Morning (6AM-2PM)"
  else if 14 ≤ hour ∧ hour < 22 then "Afternoon (2PM-10PM)"
  else "Night (10PM-6AM)"

/-- First-pass-yield formula of `_build_fact_production`. -/
def jsFpy (draw eff complexityFactor : ℚ) : ℚ :=
  pyRound3 (min 1 (max (85/100) (draw * eff * complexityFactor)))

/-- `quantity_good = max(1, int(quantity * fpy))`. -/
def jsQuantityGood (quantity : ℕ) (fpy : ℚ) : ℤ :=
  max 1 (pyInt (quantity * fpy))

/-- One routing step of `_build_fact_production`: returns the row and the
advanced job clock (`current_time` after the inter-step gap). -/
def jsProdStep (ps : JSProdStreams) (machinesByType : String → List String)
    (opIds : List String) (opEff : String → ℚ) (job : JobOrder)
    (prodId stepNum : ℕ) (mtype : String) (cursor : ℚ) : JSProdRec × ℚ :=
  let mspec := jsMachineSpecOf mtype
  let pool := machinesByType mtype
  let machineId := pool.getD (ps.machPick job.jobOrderId stepNum % pool.length) ""
  let operatorId := opIds.getD (ps.opPick job.jobOrderId stepNum % opIds.length) ""
  let eff := opEff operatorId
  let baseCycle := mspec.avgCycleMin
  let actualCycle := pyRound1 (max (baseCycle * 1/2)
    (baseCycle * (1 / eff) + ps.cycleNoise job.jobOrderId stepNum (baseCycle * mspec.variability)))
  let queueTime := pyRound1 (max 0
    (ps.queueDraw job.jobOrderId stepNum * (if mtype = "Surface Grinder" then 25/10 else 1)))
  let setupTime := pyRound1 (max 3 (ps.setupDraw job.jobOrderId stepNum))
  let startTime := cursor + queueTime
  let endTime := startTime + setupTime + actualCycle * job.quantity
  let hour := ⌊startTime / 60⌋ % 24
  let totalMinutes := setupTime + actualCycle * job.quantity
  let complexityFactor : ℚ := if stepNum ≤ 2 then 1 else 98/100
  let fpy := jsFpy (ps.fpyDraw job.jobOrderId stepNum) eff complexityFactor
  (⟨prodId, job.jobOrderId, job.productId, machineId, operatorId, stepNum, mtype,
    ⌊startTime / 1440⌋, jsShiftOfHour hour, startTime, endTime,
    setupTime, actualCycle, queueTime,
    pyRound1 (setupTime + actualCycle * job.quantity + queueTime),
    job.quantity, jsQuantityGood job.quantity fpy, fpy,
    pyRound2 (totalMinutes / 60 * mspec.hourlyCost),
    pyRound2 (totalMinutes / 60 * 35)⟩,
   endTime + ps.gapDraw job.jobOrderId stepNum)

/-- All routing steps of one job, with dense ids from `prodId` upward. -/
def jsJobRows (ps : JSProdStreams) (machinesByType : String → List String)
    (opIds : List String) (opEff : String → ℚ) (job : JobOrder) :
    List String → ℕ → ℕ → ℚ → List JSProdRec
  | [], _, _, _ => []
  | mtype :: rest, prodId, stepNum, cursor =>
    let rc := jsProdStep ps machinesByType opIds opEff job prodId stepNum mtype cursor
    rc.1 :: jsJobRows ps machinesByType opIds opEff job rest (prodId + 1) (stepNum + 1) rc.2

/-- `PRODUCT_CATALOG[job.product_name]["routing"]`. -/
def jsRoutingOf (productName : String) : List String :=
  ((jsProductCatalog.find? (fun p => p.name = productName)).getD ⟨"", "", [], 30, []⟩).routing

/-- One job of the `_build_fact_production` loop: append the job's step
rows and advance the dense production-id counter. -/
def jsProdFoldStep (ps : JSProdStreams) (machinesByType : String → List String)
    (opIds : List String) (opEff : String → ℚ) (acc : List JSProdRec × ℕ)
    (job : JobOrder) : List JSProdRec × ℕ :=
  let routing := jsRoutingOf job.productName
  let t0 := (job.orderDate : ℚ) * 1440 + 60 * ps.startDraw job.jobOrderId
  (acc.1 ++ jsJobRows ps machinesByType opIds opEff job routing acc.2 1 t0,
   acc.2 + routing.length)

/-- `JobShopSimulator._build_fact_production`: machines-by-type and the
operator-efficiency map are read from the dimension tables, the job clock
starts `uniform(1, 8)` hours after the order date, and the dense
production id runs across jobs. -/
def jsBuildFactProduction (ms : List DimMachine) (ops : List JSDimOperator)
    (ps : JSProdStreams) (jobs : List JobOrder) : List JSProdRec :=
  let machinesByType := fun t => (ms.filter (fun m => m.machineType = t)).map (fun m => m.machineId)
  let opIds := ops.map (fun o => o.operatorId)
  let opEff := fun oid =>
    ((ops.find? (fun o => o.operatorId = oid)).getD
      ⟨"", "", "", 0, 0, "", 0, 1⟩).efficiencyRating
  (jobs.foldl (jsProdFoldStep ps machinesByType opIds opEff) (([], 1) : List JSProdRec × ℕ)).1

/-! ### Job shop: quality events -/

/-- One row of job-shop `fact_quality`. -/
structure JSQualityEvent where
  qualityEventId : ℕ
  productionId : ℕ
  jobOrderId : ℕ
  productId : String
  machineId : String
  operatorId : String
  date : ℤ
  defectType : String
  severity : String
  disposition : String
  reworkCost : ℚ
  rootCause : String
  correctiveActionTaken : Bool
deriving DecidableEq, Repr

/-- Realized draws of `_build_fact_quality`, indexed by the dense event
counter. -/
structure JSQualityStreams where
  sevPick : ℕ → ℕ
  dispPick : ℕ → ℕ
  reworkDraw : ℕ → ℚ
  scrapDraw : ℕ → ℚ
  defectPick : ℕ → ℕ
  rootPick : ℕ → ℕ
  caPick : ℕ → Bool

/-- `defect_count = quantity_in - quantity_good` (no events when ≤ 0). -/
def jsDefectCount (p : JSProdRec) : ℕ := ((p.quantityIn : ℤ) - p.quantityGood).toNat

/-- `JobShopSimulator._build_fact_quality`: one event per defective unit
of each production run, copying the parent run's keys. -/
def jsBuildFactQuality (qs : JSQualityStreams) (prods : List JSProdRec) :
    List JSQualityEvent :=
  ((prods.flatMap (fun p => (List.range (jsDefectCount p)).map (fun _ => p))).enum).map
    (fun ip =>
      let i := ip.1
      let p := ip.2
      let severity := jsSeverities.getD (qs.sevPick i % jsSeverities.length) "Minor"
      let opts := jsDispositionOptions severity
      let disposition := opts.getD (qs.dispPick i % opts.length) "Rework"
      let reworkCost :=
        if disposition = "Rework" then pyRound2 (qs.reworkDraw i)
        else if disposition = "Scrap" then
          pyRound2 (jsMaterialCostOfName (productNameFromId p.productId) * qs.scrapDraw i)
        else 0
      { qualityEventId := i + 1, productionId := p.productionId,
        jobOrderId := p.jobOrderId, productId := p.productId,
        machineId := p.machineId, operatorId := p.operatorId, date := p.date,
        defectType := jsDefectTypes.getD (qs.defectPick i % jsDefectTypes.length) "",
        severity := severity, disposition := disposition, reworkCost := reworkCost,
        rootCause := jsRootCauses.getD (qs.rootPick i % jsRootCauses.length) "",
        correctiveActionTaken := qs.caPick i })

/-! ### Job shop: downtime -/

/-- One row of job-shop `fact_downtime`. -/
structure JSDowntimeRec where
  downtimeId : ℕ
  machineId : String
  date : ℕ
  downtimeCategory : String
  durationHours : ℚ
  downtimeCost : ℚ
  shiftAffected : String
  wasScheduled : Bool
  impactDescription : String
deriving DecidableEq, Repr

/-- Realized draws of job-shop `_build_fact_downtime`; `countDraw` takes
the Poisson rate `freq * total_months` the source passes to
`rng.poisson`. -/
structure JSDowntimeStreams where
  countDraw : ℕ → ℕ → ℚ → ℕ
  dayDraw : ℕ → ℕ → ℕ → ℚ
  durDraw : ℕ → ℕ → ℕ → ℚ
  breakdownCostDraw : ℕ → ℕ → ℕ → ℚ
  shiftPick : ℕ → ℕ → ℕ → ℕ

/-- `JobShopSimulator._downtime_impact`. -/
def jsDowntimeImpact (category : String) : String :=
  if category = "Planned Maintenance" then "Scheduled service - production rerouted"
  else if category = "Unplanned Breakdown" then "Emergency repair required - jobs delayed"
  else if category = "Tooling Change" then "Tool replacement for new job setup"
  else if category = "Material Shortage" then "Waiting for material delivery"
  else if category = "Quality Hold" then "Production paused pending quality investigation"
  else if category = "Calibration" then "Periodic calibration per quality standard"
  else "Unknown"

/-- `JobShopSimulator._build_fact_downtime`: the unplanned-breakdown rate
is scaled by the machine's condition score; weekend candidates are
dropped. -/
def jsBuildFactDowntime (ds : JSDowntimeStreams) (ms : List DimMachine) :
    List JSDowntimeRec :=
  ((ms.enum.flatMap (fun mm =>
    let mi := mm.1
    let machine := mm.2
    jsDowntimeCats.enum.flatMap (fun cc =>
      let ci := cc.1
      let cat := cc.2.1
      let freq := if cat = "Unplanned Breakdown"
        then cc.2.2.2 * max (1/2) (2 - machine.conditionScore) else cc.2.2.2
      let nEvents := ds.countDraw mi ci (freq * jsTotalMonths)
      (List.range nEvents).filterMap (fun k =>
        let eventDate := (pyInt (ds.dayDraw mi ci k)).toNat
        if ¬ isWorkday eventDate then (none : Option JSDowntimeRec)
        else
          let duration := pyRound2 (max (1/4) (ds.durDraw mi ci k))
          some { downtimeId := 0, machineId := machine.machineId, date := eventDate,
                 downtimeCategory := cat,
                 durationHours := duration,
                 downtimeCost := pyRound2 (duration * machine.hourlyOperatingCost * 3/10 +
                   (if cat = "Unplanned Breakdown" then ds.breakdownCostDraw mi ci k else 0)),
                 shiftAffected := jsShifts.getD (ds.shiftPick mi ci k % jsShifts.length) "",
                 wasScheduled := cat = "Planned Maintenance" ∨ cat = "Calibration",
                 impactDescription := jsDowntimeImpact cat })))).enum).map
    (fun ir => { ir.2 with downtimeId := ir.1 + 1 })

/-! ### SCADA: dimension tables and the run pipeline -/

/-- One row of scada `dim_stations`. -/
structure ScadaDimStation where
  stationId : String
  linePosition : ℕ
  numMachines : ℕ
  targetCycleTimeMin : ℚ
  isBottleneck : Bool
deriving DecidableEq, Repr

/-- `ScadaSimulator._build_dim_stations`. -/
def scadaBuildDimStations : List ScadaDimStation :=
  scadaStations.map (fun s =>
    { stationId := s.stationId, linePosition := s.position,
      numMachines := s.numMachines, targetCycleTimeMin := s.cycleTimeMean,
      isBottleneck := s.stationId = "STN-04" })

/-- One row of scada `dim_sensors`. -/
structure ScadaDimSensor where
  sensorId : ℕ
  stationId : String
  sensorName : String
  unit : String
  baselineValue : ℚ
  alarmLow : Option ℚ
  alarmHigh : Option ℚ
deriving DecidableEq, Repr

/-- `ScadaSimulator._build_dim_sensors`. -/
def scadaBuildDimSensors : List ScadaDimSensor :=
  flatSensors.map (fun t =>
    { sensorId := t.1, stationId := t.2.1, sensorName := t.2.2.name,
      unit := t.2.2.unit, baselineValue := t.2.2.baseline,
      alarmLow := t.2.2.alarmLo, alarmHigh := t.2.2.alarmHi })

/-- `OPERATORS` of the scada simulator. -/
def scadaOperators : List (String × String × String × ℚ × String) :=
  [("OPR-01", "Maria Santos", "Day", 82/10, "Expert"),
   ("OPR-02", "James Chen", "Day", 65/10, "Advanced"),
   ("OPR-03", "Aisha Patel", "Day", 41/10, "Advanced"),
   ("OPR-04", "Robert Kowalski", "Day", 23/10, "Intermediate"),
   ("OPR-05", "Yuki Tanaka", "Swing", 78/10, "Expert"),
   ("OPR-06", "Carlos Rivera", "Swing", 35/10, "Advanced"),
   ("OPR-07", "Emma Johansson", "Swing", 18/10, "Intermediate"),
   ("OPR-08", "David Okafor", "Swing", 5, "Advanced"),
   ("OPR-09", "Sarah Mitchell", "Night", 91/10, "Expert"),
   ("OPR-10", "Ahmed Hassan", "Night", 2, "Intermediate"),
   ("OPR-11", "Lisa Nguyen", "Night", 8/10, "Junior"),
   ("OPR-12", "Kevin O'Brien", "Night", 12/10, "Junior")]

/-- One row of scada `dim_operators`. -/
structure ScadaDimOperator where
  operatorId : String
  operatorName : String
  primaryShift : String
  experienceYears : ℚ
  skillLevel : String
  efficiencyRating : ℚ
deriving DecidableEq, Repr

/-- `ScadaSimulator._build_dim_operators`. -/
def scadaBuildDimOperators (effDraw : ℕ → ℚ) : List ScadaDimOperator :=
  (scadaOperators.enum).map (fun it =>
    let t := it.2
    { operatorId := t.1, operatorName := t.2.1, primaryShift := t.2.2.1,
      experienceYears := t.2.2.2.1, skillLevel := t.2.2.2.2,
      efficiencyRating := pyRound3 (min 1 (75/100 + t.2.2.2.1 * 25/1000 + effDraw it.1)) })

/-- One row of scada `dim_date` (pure calendar attributes; string
formatting carries no logic). -/
structure ScadaDimDateRow where
  date : ℕ
  year : ℕ
  monthNum : ℕ
  weekdayIdx : ℕ
  isWeekend : Bool
  isWorkingDay : Bool
deriving DecidableEq, Repr

/-- `ScadaSimulator._build_dim_date`. -/
def scadaBuildDimDate : List ScadaDimDateRow :=
  (List.range (simEndDay + 1)).map (fun d =>
    { date := d, year := 2024, monthNum := monthOfDay d, weekdayIdx := d % 7,
      isWeekend := ¬ (d % 7 < 5), isWorkingDay := d % 7 < 5 })

/-- All realized randomness a `ScadaSimulator` run consumes; every field
stands for one call site of the generators seeded in `__init__`. -/
structure ScadaStreams where
  opEffDraw : ℕ → ℚ
  maintDraw : ℕ → ℕ → ℕ
  orderCountDraw : ℕ → ℤ
  orderProductPick : ℕ → ℕ → ℕ
  orderPriorityPick : ℕ → ℕ → ℕ
  readingOracle : String → ℕ → ℕ → ℕ → ℕ → Oracle
  prod : ScadaProdStreams
  quality : ScadaQualityStreams
  downtime : ScadaDowntimeStreams

/-- The full table set returned by `ScadaSimulator.run`. -/
structure ScadaTables where
  dimStations : List ScadaDimStation
  dimSensors : List ScadaDimSensor
  dimOperators : List ScadaDimOperator
  dimDate : List ScadaDimDateRow
  maintenanceDates : List (String × List ℕ)
  orders : List ScadaOrder
  factSensorReadings : List Reading
  factProduction : List ScadaProdRec
  factQualityEvents : List ScadaQualityEvent
  factDowntime : List ScadaDowntimeRec
  factAlarms : List AlarmRec

/-- Per-station maintenance schedules (`_schedule_maintenance` loops the
stations in order, so station `si` consumes its own draw stream). -/
def scadaMaintenanceAll (maintDraw : ℕ → ℕ → ℕ) : List (String × List ℕ) :=
  (scadaStations.enum).map (fun ss => (ss.2.stationId, scheduleDates (maintDraw ss.1)))

/-- Maintenance-date lookup (`self.maintenance_dates.get(station_id, [])`). -/
def maintLookup (m : List (String × List ℕ)) (stationId : String) : List ℕ :=
  ((m.find? (fun p => p.1 = stationId)).getD (stationId, [])).2

/-- `ScadaSimulator.run`: dimensions, then the maintenance schedule, then
orders, then the fact tables, each derived only from the already-built
state, exactly in source order. -/
def scadaRunModel (tr : Transcend) (s : ScadaStreams) : ScadaTables :=
  let maintenanceDates := scadaMaintenanceAll s.maintDraw
  let maint := maintLookup maintenanceDates
  let orders := scadaGenerateOrders s.orderCountDraw s.orderProductPick s.orderPriorityPick
  let readings := scadaBuildFactSensorReadings tr s.readingOracle maint orders
  let production := scadaBuildFactProduction tr s.prod maint orders
  { dimStations := scadaBuildDimStations,
    dimSensors := scadaBuildDimSensors,
    dimOperators := scadaBuildDimOperators s.opEffDraw,
    dimDate := scadaBuildDimDate,
    maintenanceDates := maintenanceDates,
    orders := orders,
    factSensorReadings := readings,
    factProduction := production,
    factQualityEvents := scadaBuildFactQualityEvents s.quality production,
    factDowntime := scadaBuildFactDowntime s.downtime maint,
    factAlarms := scadaBuildFactAlarms readings }

/-! ### Job shop: dim_date and the run pipeline -/

/-- One row of job-shop `dim_date` (calendar attributes beyond the
weekday flags are pure string/number formatting of the date and are
omitted). -/
structure JSDimDateRow where
  date : ℕ
  weekdayIdx : ℕ
  isWeekend : Bool
  isWorkingDay : Bool
deriving DecidableEq, Repr

/-- `JobShopSimulator._build_dim_date`. -/
def jsBuildDimDate : List JSDimDateRow :=
  (List.range (jsEndDay + 1)).map (fun d =>
    { date := d, weekdayIdx := d % 7, isWeekend := ¬ (d % 7 < 5),
      isWorkingDay := d % 7 < 5 })

/-- All realized randomness a `JobShopSimulator` run consumes. -/
structure JobShopStreams where
  machines : JSMachineStreams
  operators : JSOperatorStreams
  customers : JSCustomerStreams
  orders : JSOrderStreams
  production : JSProdStreams
  quality : JSQualityStreams
  downtime : JSDowntimeStreams

/-- The full table set returned by `JobShopSimulator.run`. -/
structure JobShopTables where
  dimMachines : List DimMachine
  dimOperators : List JSDimOperator
  dimCustomers : List JSDimCustomer
  dimDate : List JSDimDateRow
  factJobOrders : List JobOrder
  factProduction : List JSProdRec
  factQuality : List JSQualityEvent
  factDowntime : List JSDowntimeRec

/-- `JobShopSimulator.run(n_orders)`: dimension tables, then job orders,
then production, quality and downtime, each from the already-built
tables, in source order.  No validation of `n_orders` is performed. -/
def jobShopRunModel (s : JobShopStreams) (nOrders : ℤ) : JobShopTables :=
  let dimMachines := jsBuildDimMachines s.machines
  let dimOperators := jsBuildDimOperators s.operators
  let factJobOrders := jsBuildFactJobOrders s.orders nOrders
  let factProduction := jsBuildFactProduction dimMachines dimOperators s.production factJobOrders
  { dimMachines := dimMachines,
    dimOperators := dimOperators,
    dimCustomers := jsBuildDimCustomers s.customers,
    dimDate := jsBuildDimDate,
    factJobOrders := factJobOrders,
    factProduction := factProduction,
    factQuality := jsBuildFactQuality s.quality factProduction,
    factDowntime := jsBuildFactDowntime s.downtime dimMachines }

/-! ### Supporting lemmas: `List.foldl max` -/

theorem init_le_foldlMax (l : List ℕ) (a : ℕ) : a ≤ l.foldl max a := by
  induction l generalizing a with
  | nil => simp
  | cons x xs ih => exact le_trans (le_max_left a x) (ih (max a x))

theorem foldlMax_le {l : List ℕ} {b : ℕ} (hb : ∀ x ∈ l, x ≤ b) {a : ℕ} (ha : a ≤ b) :
    l.foldl max a ≤ b := by
  induction l generalizing a with
  | nil => simpa using ha
  | cons x xs ih =>
    simp only [List.foldl_cons]
    exact ih (fun y hy => hb y (List.mem_cons_of_mem _ hy))
      (max_le ha (hb x (List.mem_cons_self _ _)))

theorem le_foldlMax {l : List ℕ} {x : ℕ} (hx : x ∈ l) (a : ℕ) : x ≤ l.foldl max a := by
  induction l generalizing a with
  | nil => cases hx
  | cons y ys ih =>
    simp only [List.foldl_cons]
    rcases List.mem_cons.mp hx with h | h
    · exact le_trans (le_trans (le_of_eq h) (le_max_right a y)) (init_le_foldlMax ys (max a y))
    · exact ih h (max a y)

/-- Closed form of `_days_since_last_maintenance` when `m` is the most
recent maintenance date at or before `t`. -/
theorem daysSince_eq_sub {dates : List ℕ} {t m : ℕ} (hm : m ∈ dates) (hmt : m ≤ t)
    (hmax : ∀ d ∈ dates, d ≤ t → d ≤ m) :
    daysSinceLastMaintenance dates t = t - m := by
  unfold daysSinceLastMaintenance
  have hmem : m ∈ dates.filter (fun d => d ≤ t) :=
    List.mem_filter.mpr ⟨hm, by simpa using hmt⟩
  have hne : ¬ (dates.filter (fun d => d ≤ t)).isEmpty = true := by
    intro h
    rw [List.isEmpty_iff] at h
    rw [h] at hmem
    cases hmem
  rw [if_neg hne]
  have h1 : (dates.filter (fun d => d ≤ t)).foldl max 0 ≤ m :=
    foldlMax_le (fun x hx => by
      have hx' := List.mem_filter.mp hx
      exact hmax x hx'.1 (by simpa using hx'.2)) (Nat.zero_le m)
  have h2 : m ≤ (dates.filter (fun d => d ≤ t)).foldl max 0 := le_foldlMax hmem 0
  omega

/-- C2: `_days_since_last_maintenance(station, t)` equals `t - m` where
`m` is the most recent maintenance date at or before `t`, equals the full
elapsed-since-`SIM_START` duration `t` when no maintenance has occurred
yet, equals exactly `0` at a scheduled maintenance date, and is strictly
increasing between two consecutive maintenance dates of the station. -/
theorem daysSinceLastMaintenance_spec :
    (∀ (dates : List ℕ) (m t : ℕ), m ∈ dates → m ≤ t → (∀ d ∈ dates, d ≤ t → d ≤ m) →
       daysSinceLastMaintenance dates t = t - m) ∧
    (∀ (dates : List ℕ) (t : ℕ), (∀ d ∈ dates, ¬ d ≤ t) →
       daysSinceLastMaintenance dates t = t) ∧
    (∀ (dates : List ℕ) (d : ℕ), d ∈ dates → daysSinceLastMaintenance dates d = 0) ∧
    (∀ (dates : List ℕ) (d1 s t : ℕ), d1 ∈ dates → d1 ≤ s → s < t →
       (∀ d ∈ dates, d ≤ t → d ≤ d1) →
       daysSinceLastMaintenance dates s < daysSinceLastMaintenance dates t) := by
  refine ⟨fun dates m t hm hmt hmax => daysSince_eq_sub hm hmt hmax, ?_, ?_, ?_⟩
  · intro dates t hnone
    unfold daysSinceLastMaintenance
    have hnil : dates.filter (fun d => d ≤ t) = [] := by
      rw [List.filter_eq_nil_iff]
      intro a ha
      simpa using hnone a ha
    simp [hnil]
  · intro dates d hd
    rw [daysSince_eq_sub hd (le_refl d) (fun x _ hx => hx)]
    omega
  · intro dates d1 s t hd1 hds hst hmax
    have hmaxs : ∀ d ∈ dates, d ≤ s → d ≤ d1 := fun d hd hdle =>
      hmax d hd (le_trans hdle (le_of_lt hst))
    rw [daysSince_eq_sub hd1 hds hmaxs,
        daysSince_eq_sub hd1 (le_trans hds (le_of_lt hst)) hmax]
    omega

/-- C2 witness: the schedule `[5, 25]` gives gap `5` at `t = 30`, the full
elapsed time at `t = 3`, `0` at the maintenance date `25`, and a strict
increase from `t = 10` to `t = 20` between the two maintenance dates. -/
theorem daysSinceLastMaintenance_spec_witness :
    daysSinceLastMaintenance [5, 25] 30 = 30 - 25 ∧
    daysSinceLastMaintenance [5, 25] 3 = 3 ∧
    daysSinceLastMaintenance [5, 25] 25 = 0 ∧
    daysSinceLastMaintenance [5, 25] 10 < daysSinceLastMaintenance [5, 25] 20 :=
  ⟨daysSinceLastMaintenance_spec.1 [5, 25] 25 30 (by decide) (by decide) (by decide),
   daysSinceLastMaintenance_spec.2.1 [5, 25] 3 (by decide),
   daysSinceLastMaintenance_spec.2.2.1 [5, 25] 25 (by decide),
   daysSinceLastMaintenance_spec.2.2.2 [5, 25] 5 10 20 (by decide) (by decide)
     (by decide) (by decide)⟩

/-! ### Shared concrete instances for witnesses -/

/-- An all-zero draw oracle. -/
def oracle0 : Oracle := ⟨fun _ _ => 0, fun _ _ => 0, fun _ => 0⟩

/-- All-zero transcendental functions (a legal realization: every claim
under study is quantified over arbitrary `Transcend`). -/
def tr0 : Transcend := ⟨fun _ => 0, fun _ => 0, fun _ => 0⟩

/-- A fixed scada stream assignment. -/
def scadaStreams0 : ScadaStreams :=
  { opEffDraw := fun _ => 0, maintDraw := fun _ _ => 18,
    orderCountDraw := fun _ => 0, orderProductPick := fun _ _ => 0,
    orderPriorityPick := fun _ _ => 0,
    readingOracle := fun _ _ _ _ _ => oracle0,
    prod := ⟨fun _ => 0, fun _ _ _ _ => 0, fun _ _ _ => 0, fun _ _ => 0,
             fun _ _ => 0, fun _ _ => 1⟩,
    quality := ⟨fun _ => 0, fun _ => 0, fun _ => 0, fun _ => 0,
                fun _ => 0, fun _ => 0, fun _ => false⟩,
    downtime := ⟨fun _ _ _ => 0, fun _ _ _ => 0, fun _ _ _ => 0,
                 fun _ _ _ => 0, fun _ _ _ => 6, fun _ _ _ => 0⟩ }

/-- A fixed job-shop stream assignment. -/
def jobShopStreams0 : JobShopStreams :=
  { machines := ⟨fun _ => 5, fun _ => 0⟩,
    operators := ⟨fun _ => 0, fun _ => 730, fun _ => 1, fun _ => 0⟩,
    customers := ⟨fun _ => 0, fun _ => 0, fun _ => 0⟩,
    orders := ⟨fun _ => 0, fun _ => 0, fun _ => 0, fun _ => 0, fun _ => 0⟩,
    production := ⟨fun _ => 1, fun _ _ => 0, fun _ _ => 0, fun _ _ _ => 0,
                   fun _ _ => 0, fun _ _ => 10, fun _ _ => 96/100, fun _ _ => 10⟩,
    quality := ⟨fun _ => 0, fun _ => 0, fun _ => 50, fun _ => 1/2,
                fun _ => 0, fun _ => 0, fun _ => false⟩,
    downtime := ⟨fun _ _ _ => 0, fun _ _ _ => 0, fun _ _ _ => 2,
                 fun _ _ _ => 200, fun _ _ _ => 0⟩ }

/-! ### C1: determinism -/

/-- C1: both simulators are deterministic — a run's entire table set is a
function of the realized randomness streams (everything the constructor's
seeded generators produce; for the scada engine also the fixed
mathematical library functions) and the configuration (`n_orders` for the
job shop).  Two runs with identical streams and configuration yield
identical table sets, so the output is a function of (seed, configuration)
alone. -/
theorem run_deterministic (tr1 tr2 : Transcend) (s1 s2 : ScadaStreams)
    (u1 u2 : JobShopStreams) (n1 n2 : ℤ)
    (ht : tr1 = tr2) (hs : s1 = s2) (hu : u1 = u2) (hn : n1 = n2) :
    scadaRunModel tr1 s1 = scadaRunModel tr2 s2 ∧
    jobShopRunModel u1 n1 = jobShopRunModel u2 n2 := by
  subst ht
  subst hs
  subst hu
  subst hn
  exact ⟨rfl, rfl⟩

/-- C1 witness: two runs from the same concrete streams and
configuration agree. -/
theorem run_deterministic_witness :
    scadaRunModel tr0 scadaStreams0 = scadaRunModel tr0 scadaStreams0 ∧
    jobShopRunModel jobShopStreams0 2400 = jobShopRunModel jobShopStreams0 2400 :=
  run_deterministic tr0 tr0 scadaStreams0 scadaStreams0 jobShopStreams0 jobShopStreams0
    2400 2400 rfl rfl rfl rfl

/-! ### C7: degradation monotonicity -/

theorem scadaDefectRateBase_nonneg {stn : StationSpec} (hstn : stn ∈ scadaStations)
    (tr : Transcend) (shift : String) (isRush : Bool) (day : ℕ) :
    0 ≤ scadaDefectRateBase tr stn shift isRush day := by
  have heff : 0 < shiftEfficiency shift := by
    unfold shiftEfficiency
    split_ifs <;> norm_num
  have hbase : 0 ≤ stn.baseDefectRate := by
    fin_cases hstn <;> norm_num
  have h0 : 0 ≤ stn.baseDefectRate * (1 / shiftEfficiency shift) :=
    mul_nonneg hbase (by positivity)
  unfold scadaDefectRateBase
  dsimp only
  split_ifs <;> linarith [h0]

/-- C7: holding every other input fixed, a larger `days_since_maintenance`
never decreases the defect probability compared against the uniform draw
in `_build_fact_production`, and never decreases the keep-probability with
which a candidate `Unplanned Breakdown` event is accepted in
`_build_fact_downtime`. -/
theorem degradation_monotone :
    (∀ stn ∈ scadaStations, ∀ (tr : Transcend) (shift : String) (isRush : Bool)
       (day d1 d2 : ℕ), d1 ≤ d2 →
       scadaDefectRate tr stn shift isRush day d1 ≤
         scadaDefectRate tr stn shift isRush day d2) ∧
    (∀ d1 d2 : ℕ, d1 ≤ d2 → breakdownKeepProb d1 ≤ breakdownKeepProb d2) := by
  constructor
  · intro stn hstn tr shift isRush day d1 d2 hd
    unfold scadaDefectRate
    have hC := scadaDefectRateBase_nonneg hstn tr shift isRush day
    have hdq : (d1 : ℚ) ≤ d2 := by exact_mod_cast hd
    have hfac : (1 + (d1 : ℚ) * 8/1000) ≤ 1 + (d2 : ℚ) * 8/1000 := by linarith
    exact mul_le_mul_of_nonneg_left hfac hC
  · intro d1 d2 hd
    unfold breakdownKeepProb
    have hdq : (d1 : ℚ) ≤ d2 := by exact_mod_cast hd
    exact min_le_min (le_refl 1) (by linarith)

/-- C7 witness: at station STN-01 on a Day shift, ten elapsed days weigh
at least as much as zero, and likewise for the breakdown keep
probability. -/
theorem degradation_monotone_witness :
    scadaDefectRate tr0 ⟨"STN-01", 1, 3, 45, 4, 2/100⟩ "Day" false 0 0 ≤
      scadaDefectRate tr0 ⟨"STN-01", 1, 3, 45, 4, 2/100⟩ "Day" false 0 10 ∧
    breakdownKeepProb 0 ≤ breakdownKeepProb 10 :=
  ⟨degradation_monotone.1 ⟨"STN-01", 1, 3, 45, 4, 2/100⟩
      (by unfold scadaStations; exact List.mem_cons_self _ _) tr0 "Day" false 0
      0 10 (by norm_num),
   degradation_monotone.2 0 10 (by norm_num)⟩

/-! ### Rounding bound lemmas over thousandths -/

theorem le_pyRound3 {x : ℚ} {n : ℤ} (h : (n : ℚ) / 1000 ≤ x) :
    (n : ℚ) / 1000 ≤ pyRound3 x := by
  have h1000 : ((1000 : ℕ) : ℚ) = (1000 : ℚ) := by norm_num
  have h2 := le_pyRoundAt (s := 1000) (n := n) (x := x) (by norm_num) (by rw [h1000]; exact h)
  rw [h1000] at h2
  exact h2

theorem pyRound3_le {x : ℚ} {n : ℤ} (h : x ≤ (n : ℚ) / 1000) :
    pyRound3 x ≤ (n : ℚ) / 1000 := by
  have h1000 : ((1000 : ℕ) : ℚ) = (1000 : ℚ) := by norm_num
  have h2 := pyRoundAt_le (s := 1000) (n := n) (x := x) (by norm_num) (by rw [h1000]; exact h)
  rw [h1000] at h2
  exact h2

theorem le_pyRound3_int {x : ℚ} {n : ℤ} (h : (n : ℚ) ≤ x) : (n : ℚ) ≤ pyRound3 x := by
  have e : ((1000 * n : ℤ) : ℚ) / 1000 = (n : ℚ) := by
    push_cast
    exact mul_div_cancel_left₀ _ (by norm_num)
  have h2 := le_pyRound3 (n := 1000 * n) (x := x) (by rw [e]; exact h)
  rw [e] at h2
  exact h2

theorem pyRound3_le_int {x : ℚ} {n : ℤ} (h : x ≤ (n : ℚ)) : pyRound3 x ≤ (n : ℚ) := by
  have e : ((1000 * n : ℤ) : ℚ) / 1000 = (n : ℚ) := by
    push_cast
    exact mul_div_cancel_left₀ _ (by norm_num)
  have h2 := pyRound3_le (n := 1000 * n) (x := x) (by rw [e]; exact h)
  rw [e] at h2
  exact h2

theorem pyRound3_intCast (n : ℤ) : pyRound3 ((n : ℚ)) = (n : ℚ) := by
  unfold pyRound3 pyRoundAt pyRoundHE
  have e1 : ((n : ℚ) * ((1000 : ℕ) : ℚ)) = ((1000 * n : ℤ) : ℚ) := by push_cast; ring
  rw [e1, Int.floor_intCast]
  rw [sub_self, if_pos (by norm_num : (0 : ℚ) < 1/2)]
  push_cast
  exact mul_div_cancel_left₀ _ (by norm_num)

/-! ### C3: physical clamps -/

theorem clampValue_pct (v : ℚ) : clampValue "%" v = max 0 (min 100 v) := rfl

theorem clampValue_rh (v : ℚ) : clampValue "%RH" v = max 15 (min 85 v) := rfl

/-- C3 (amended): `_generate_sensor_value` clamps percentage-unit signals
into `[0, 100]`, relative-humidity signals into `[15, 85]`, and floors the
units in `nonNegClampUnits` (`mm/s, mm, ms, N, A, Nm, RPM, p/m³`) at `0`,
for every random draw; signals with other units — `MΩ`, `V`, `°C`,
`score` — are not clamped. -/
theorem sensor_value_physical_clamp :
    (∀ (tr : Transcend) (o : Oracle) (spec : SensorSpec) (stn : String) (day hour : ℕ)
       (shift : String) (rush : Bool) (dates : List ℕ), spec.unit = "%" →
       0 ≤ generateSensorValue tr o spec stn day hour shift rush dates ∧
       generateSensorValue tr o spec stn day hour shift rush dates ≤ 100) ∧
    (∀ (tr : Transcend) (o : Oracle) (spec : SensorSpec) (stn : String) (day hour : ℕ)
       (shift : String) (rush : Bool) (dates : List ℕ), spec.unit = "%RH" →
       15 ≤ generateSensorValue tr o spec stn day hour shift rush dates ∧
       generateSensorValue tr o spec stn day hour shift rush dates ≤ 85) ∧
    (∀ (tr : Transcend) (o : Oracle) (spec : SensorSpec) (stn : String) (day hour : ℕ)
       (shift : String) (rush : Bool) (dates : List ℕ), spec.unit ∈ nonNegClampUnits →
       0 ≤ generateSensorValue tr o spec stn day hour shift rush dates) := by
  have keyPct : ∀ v : ℚ, 0 ≤ pyRound3 (clampValue "%" v) ∧ pyRound3 (clampValue "%" v) ≤ 100 := by
    intro v
    rw [clampValue_pct]
    constructor
    · have h0 : (0 : ℚ) ≤ max 0 (min 100 v) := le_max_left _ _
      have h2 := le_pyRound3_int (n := 0) (x := max 0 (min 100 v)) (by exact_mod_cast h0)
      exact_mod_cast h2
    · have h1 : max 0 (min 100 v) ≤ (100 : ℚ) := max_le (by norm_num) (min_le_left _ _)
      have h2 := pyRound3_le_int (n := 100) (x := max 0 (min 100 v)) (by exact_mod_cast h1)
      exact_mod_cast h2
  have keyRh : ∀ v : ℚ, 15 ≤ pyRound3 (clampValue "%RH" v) ∧ pyRound3 (clampValue "%RH" v) ≤ 85 := by
    intro v
    rw [clampValue_rh]
    constructor
    · have h0 : (15 : ℚ) ≤ max 15 (min 85 v) := le_max_left _ _
      have h2 := le_pyRound3_int (n := 15) (x := max 15 (min 85 v)) (by exact_mod_cast h0)
      exact_mod_cast h2
    · have h1 : max 15 (min 85 v) ≤ (85 : ℚ) := max_le (by norm_num) (min_le_left _ _)
      have h2 := pyRound3_le_int (n := 85) (x := max 15 (min 85 v)) (by exact_mod_cast h1)
      exact_mod_cast h2
  have keyNn : ∀ (u : String) (v : ℚ), clampValue u v = max 0 v →
      0 ≤ pyRound3 (clampValue u v) := by
    intro u v hc
    rw [hc]
    have h0 : (0 : ℚ) ≤ max 0 v := le_max_left _ _
    have h2 := le_pyRound3_int (n := 0) (x := max 0 v) (by exact_mod_cast h0)
    exact_mod_cast h2
  refine ⟨?_, ?_, ?_⟩ <;> intro tr o spec stn day hour shift rush dates hunit
  · unfold generateSensorValue
    dsimp only
    rw [hunit]
    exact keyPct _
  · unfold generateSensorValue
    dsimp only
    rw [hunit]
    exact keyRh _
  · unfold generateSensorValue
    dsimp only
    simp only [nonNegClampUnits, List.mem_cons, List.not_mem_nil, or_false] at hunit
    rcases hunit with h | h | h | h | h | h | h | h <;> rw [h] <;> exact keyNn _ _ rfl

/-- The `%`-unit sensor of station STN-01 (`tool_wear_index`). -/
def toolWearSpec : SensorSpec := ⟨"tool_wear_index", "%", 5, 5/10, .gaussian, none, some 85, 28/10⟩

/-- The `%RH` sensor of station STN-05 (`humidity`). -/
def humiditySpec : SensorSpec := ⟨"humidity", "%RH", 42, 3, .gaussian, some 30, some 55, 0⟩

/-- The `N`-unit sensor of station STN-01 (`cutting_force`). -/
def cuttingForceSpec : SensorSpec := ⟨"cutting_force", "N", 450, 30, .gaussian, some 200, some 700, 3⟩

/-- The `MΩ` sensor of station STN-03 (`insulation_resistance`). -/
def insulationSpec : SensorSpec :=
  ⟨"insulation_resistance", "MΩ", 500, 20, .gaussian, some 200, none, -3⟩

/-- An oracle whose gaussian draw realizes −600 (a legal value for an
unbounded normal distribution). -/
def oracleNeg : Oracle := ⟨fun _ _ => -600, fun _ _ => 0, fun _ => 0⟩

/-- C3 witness: concrete catalog sensors at concrete draws respect the
three clamp ranges. -/
theorem sensor_value_physical_clamp_witness :
    (0 ≤ generateSensorValue tr0 oracle0 toolWearSpec "STN-01" 0 6 "Day" false [] ∧
     generateSensorValue tr0 oracle0 toolWearSpec "STN-01" 0 6 "Day" false [] ≤ 100) ∧
    (15 ≤ generateSensorValue tr0 oracle0 humiditySpec "STN-05" 0 6 "Day" false [] ∧
     generateSensorValue tr0 oracle0 humiditySpec "STN-05" 0 6 "Day" false [] ≤ 85) ∧
    0 ≤ generateSensorValue tr0 oracle0 cuttingForceSpec "STN-01" 0 6 "Day" false [] :=
  ⟨sensor_value_physical_clamp.1 tr0 oracle0 toolWearSpec "STN-01" 0 6 "Day" false [] rfl,
   sensor_value_physical_clamp.2.1 tr0 oracle0 humiditySpec "STN-05" 0 6 "Day" false [] rfl,
   sensor_value_physical_clamp.2.2 tr0 oracle0 cuttingForceSpec "STN-01" 0 6 "Day" false []
     (by decide)⟩

/-- C3 counterexample: the claim's own example signal — the MΩ
`insulation_resistance` sensor of STN-03 — is *not* floored at zero: its
unit is absent from the clamp list, and the legal gaussian draw −600
produces the reading −100 < 0 (station STN-03, day 0, hour 6, Day shift,
no rush, no maintenance yet). -/
theorem sensor_value_megohm_negative :
    (stationSensors "STN-03").getD 1 (0, insulationSpec) = (11, insulationSpec) ∧
    generateSensorValue tr0 oracleNeg insulationSpec "STN-03" 0 6 "Day" false [] = -100 ∧
    ¬ (0 ≤ generateSensorValue tr0 oracleNeg insulationSpec "STN-03" 0 6 "Day" false []) := by
  have hval : generateSensorValue tr0 oracleNeg insulationSpec "STN-03" 0 6 "Day" false [] = -100 := by
    unfold generateSensorValue
    dsimp only
    have hnoise : noiseTermOf tr0 oracleNeg insulationSpec "STN-03" "Day" false = -600 := rfl
    have hdays : daysSinceLastMaintenance [] 0 = 0 := rfl
    have hseason : seasonalOf tr0 insulationSpec 0 = 0 := rfl
    have hdaily : dailyOf tr0 insulationSpec 6 = 0 := rfl
    rw [hnoise, hdays, hseason, hdaily]
    have hsum : insulationSpec.baseline + insulationSpec.degrade * ((0 : ℕ) : ℚ) + 0 + 0 + -600
        = (-100 : ℚ) := by
      norm_num [insulationSpec]
    rw [hsum]
    rw [show clampValue insulationSpec.unit (-100 : ℚ) = (-100 : ℚ) from rfl]
    have h2 := pyRound3_intCast (-100)
    push_cast at h2
    exact h2
  refine ⟨by rfl, hval, ?_⟩
  rw [hval]
  norm_num

/-! ### C6: noise scale composition -/

/-- C6 (amended): in `_generate_sensor_value` the shift, rush and
bottleneck multipliers compose multiplicatively into one effective noise
scale, and for gaussian and lognormal sensors that scale feeds a single
draw; for poisson sensors, however, the single draw is taken at the
*baseline* rate (the effective scale is unused) and the shift multiplier
alone is applied to the deviation after the draw. -/
theorem noise_scale_composition :
    ∀ (tr : Transcend) (o : Oracle) (spec : SensorSpec) (stn shift : String) (rush : Bool),
      effectiveStd spec stn shift rush =
        spec.noiseStd * shiftNoiseMult shift * (if rush then 135/100 else 1) *
          (if stn = "STN-04" then 115/100 else 1) ∧
      (spec.dist = .gaussian →
        noiseTermOf tr o spec stn shift rush =
          o.normalDraw 0 (effectiveStd spec stn shift rush)) ∧
      (spec.dist = .lognormalD →
        noiseTermOf tr o spec stn shift rush =
          o.lognormalDraw
            (tr.logq spec.baseline -
              tr.sqrtq (tr.logq (1 + (effectiveStd spec stn shift rush / spec.baseline) ^ 2)) ^ 2 / 2)
            (tr.sqrtq (tr.logq (1 + (effectiveStd spec stn shift rush / spec.baseline) ^ 2))) -
          spec.baseline) ∧
      (spec.dist = .poissonD →
        noiseTermOf tr o spec stn shift rush =
          (o.poissonDraw spec.baseline - spec.baseline) * shiftNoiseMult shift) := by
  intro tr o spec stn shift rush
  refine ⟨?_, ?_, ?_, ?_⟩
  · unfold effectiveStd
    dsimp only
    split_ifs <;> ring
  · intro h
    unfold noiseTermOf
    rw [h]
  · intro h
    unfold noiseTermOf
    rw [h]
  · intro h
    unfold noiseTermOf
    rw [h]

/-- The gaussian sensor `spindle_speed` of STN-01. -/
def spindleSpeedSpec : SensorSpec :=
  ⟨"spindle_speed", "RPM", 8000, 120, .gaussian, some 7200, some 8800, 0⟩

/-- The lognormal sensor `spindle_vibration` of STN-01. -/
def spindleVibrationSpec : SensorSpec :=
  ⟨"spindle_vibration", "mm/s", 21/10, 15/100, .lognormalD, none, some (45/10), 8/100⟩

/-- The poisson sensor `particle_count` of STN-05. -/
def particleCountSpec : SensorSpec :=
  ⟨"particle_count", "p/m³", 3500, 400, .poissonD, none, some 10000, 0⟩

/-- C6 witness: the three distribution branches at concrete catalog
sensors. -/
theorem noise_scale_composition_witness :
    noiseTermOf tr0 oracle0 spindleSpeedSpec "STN-01" "Day" false =
      oracle0.normalDraw 0 (effectiveStd spindleSpeedSpec "STN-01" "Day" false) ∧
    noiseTermOf tr0 oracle0 spindleVibrationSpec "STN-01" "Day" false =
      oracle0.lognormalDraw
        (tr0.logq spindleVibrationSpec.baseline -
          tr0.sqrtq (tr0.logq (1 + (effectiveStd spindleVibrationSpec "STN-01" "Day" false /
            spindleVibrationSpec.baseline) ^ 2)) ^ 2 / 2)
        (tr0.sqrtq (tr0.logq (1 + (effectiveStd spindleVibrationSpec "STN-01" "Day" false /
          spindleVibrationSpec.baseline) ^ 2))) -
      spindleVibrationSpec.baseline ∧
    noiseTermOf tr0 oracle0 particleCountSpec "STN-05" "Night" false =
      (oracle0.poissonDraw particleCountSpec.baseline - particleCountSpec.baseline) *
        shiftNoiseMult "Night" :=
  ⟨(noise_scale_composition tr0 oracle0 spindleSpeedSpec "STN-01" "Day" false).2.1 rfl,
   (noise_scale_composition tr0 oracle0 spindleVibrationSpec "STN-01" "Day" false).2.2.1 rfl,
   (noise_scale_composition tr0 oracle0 particleCountSpec "STN-05" "Night" false).2.2.2 rfl⟩

/-- An oracle whose poisson draw realizes 3600 at every rate it is
offered (3600 is a legal poisson value). -/
def oraclePoisson : Oracle := ⟨fun _ _ => 0, fun _ _ => 0, fun _ => 3600⟩

theorem seasonalHumidityOffset_tr0 (d : ℕ) : seasonalHumidityOffset tr0 d = 0 := by
  unfold seasonalHumidityOffset tr0
  norm_num

theorem seasonalOf_particle_tr0 : seasonalOf tr0 particleCountSpec 0 = 0 := by
  have h1 : particleCountSpec.name = "particle_count" := rfl
  unfold seasonalOf
  rw [h1, if_neg (by decide), if_neg (by decide), if_pos rfl, seasonalHumidityOffset_tr0]
  norm_num

theorem dailyOf_particle_tr0 : dailyOf tr0 particleCountSpec 22 = 0 := by
  have h1 : particleCountSpec.name = "particle_count" := rfl
  unfold dailyOf
  rw [h1, if_neg (by decide)]

theorem noiseTerm_particle_night (rush : Bool) :
    noiseTermOf tr0 oraclePoisson particleCountSpec "STN-05" "Night" rush = 118 := by
  show (oraclePoisson.poissonDraw particleCountSpec.baseline - particleCountSpec.baseline) *
      shiftNoiseMult "Night" = 118
  rw [show oraclePoisson.poissonDraw particleCountSpec.baseline = 3600 from rfl,
      show shiftNoiseMult "Night" = 118/100 from rfl,
      show particleCountSpec.baseline = (3500 : ℚ) from rfl]
  norm_num

theorem particle_reading_tr0 (rush : Bool) :
    generateSensorValue tr0 oraclePoisson particleCountSpec "STN-05" 0 22 "Night" rush [] = 3618 := by
  unfold generateSensorValue
  dsimp only
  rw [noiseTerm_particle_night rush, show daysSinceLastMaintenance [] 0 = 0 from rfl,
      seasonalOf_particle_tr0, dailyOf_particle_tr0]
  have hsum : particleCountSpec.baseline + particleCountSpec.degrade * ((0 : ℕ) : ℚ) + 0 + 0 + 118
      = (3618 : ℚ) := by
    norm_num [particleCountSpec]
  rw [hsum, show clampValue particleCountSpec.unit (3618 : ℚ) = max 0 3618 from rfl,
      show max (0 : ℚ) 3618 = 3618 from by norm_num]
  have h2 := pyRound3_intCast 3618
  push_cast at h2
  exact h2

/-- C6 counterexample: the oracle realizes 3600 for every poisson rate it
could be offered, so if all multipliers were composed into the scale of
one draw with nothing applied afterwards, the Night-shift `particle_count`
reading (all offsets zero) would be 3600; the code instead produces
3618 = 3500 + 1.18 · (3600 − 3500), applying the shift multiplier to the
noise *after* the draw — and toggling the rush flag changes nothing even
though the claim says it widens the scale of the draw. -/
theorem poisson_noise_post_draw_multiplier :
    oraclePoisson.poissonDraw 3500 = 3600 ∧
    generateSensorValue tr0 oraclePoisson particleCountSpec "STN-05" 0 22 "Night" false [] = 3618 ∧
    generateSensorValue tr0 oraclePoisson particleCountSpec "STN-05" 0 22 "Night" true [] =
      generateSensorValue tr0 oraclePoisson particleCountSpec "STN-05" 0 22 "Night" false [] ∧
    (3618 : ℚ) ≠ 3500 + (3600 - 3500) := by
  refine ⟨rfl, particle_reading_tr0 false, ?_, by norm_num⟩
  rw [particle_reading_tr0 true, particle_reading_tr0 false]

/-! ### Enum membership helpers -/

theorem snd_mem_of_mem_enum {α : Type} {l : List α} {p : ℕ × α} (hp : p ∈ l.enum) :
    p.2 ∈ l := by
  rw [List.mem_enum_iff_getElem?] at hp
  rcases List.getElem?_eq_some_iff.mp hp with ⟨h, heq⟩
  exact heq ▸ List.getElem_mem h

theorem exists_mem_enum_of_mem {α : Type} {l : List α} {x : α} (hx : x ∈ l) :
    ∃ i, (i, x) ∈ l.enum := by
  rcases List.mem_iff_getElem.mp hx with ⟨i, hi, hget⟩
  exact ⟨i, List.mem_enum_iff_getElem?.mpr (by simp [hget, hi])⟩

/-! ### C5: alarms -/

/-- Per-reading soundness of the `if/elif` breach test in
`_build_fact_alarms`: an emitted alarm copies every reading field and
records the breached threshold with the matching direction. -/
theorem alarmOf_spec {r : Reading} {a : AlarmRec} (ha : alarmOf r = some a) :
    a.tsDay = r.tsDay ∧ a.tsHour = r.tsHour ∧ a.tsMinute = r.tsMinute ∧
    a.date = r.date ∧ a.stationId = r.stationId ∧ a.sensorId = r.sensorId ∧
    a.sensorName = r.sensorName ∧ a.value = r.value ∧ a.shift = r.shift ∧
    ((a.alarmType = "Low" ∧ (alarmThresholds r.sensorName).1 = some a.threshold ∧
        r.value < a.threshold) ∨
     (a.alarmType = "High" ∧ (alarmThresholds r.sensorName).2 = some a.threshold ∧
        r.value > a.threshold)) := by
  unfold alarmOf at ha
  dsimp only at ha
  rcases hlo : (alarmThresholds r.sensorName).1 with _ | lo <;>
    rcases hhi : (alarmThresholds r.sensorName).2 with _ | hi <;>
    rw [hlo, hhi] at ha <;> dsimp only at ha
  · cases ha
  · split_ifs at ha with h1
    cases ha
    exact ⟨rfl, rfl, rfl, rfl, rfl, rfl, rfl, rfl, rfl, Or.inr ⟨rfl, rfl, h1⟩⟩
  · split_ifs at ha with h1
    cases ha
    exact ⟨rfl, rfl, rfl, rfl, rfl, rfl, rfl, rfl, rfl, Or.inl ⟨rfl, rfl, h1⟩⟩
  · split_ifs at ha with h1 h2
    · cases ha
      exact ⟨rfl, rfl, rfl, rfl, rfl, rfl, rfl, rfl, rfl, Or.inl ⟨rfl, rfl, h1⟩⟩
    · cases ha
      exact ⟨rfl, rfl, rfl, rfl, rfl, rfl, rfl, rfl, rfl, Or.inr ⟨rfl, rfl, h2⟩⟩

/-- C5: an alarm row is emitted for a sensor reading iff the reading's
value lies outside that signal's configured `[alarm_low, alarm_high]`
bound; every alarm row copies exactly that reading's fields, records the
breached threshold, and its direction matches the breach
(`value < low ⇒ "Low"`, `value > high ⇒ "High"`). -/
theorem alarms_reference_breaching_readings :
    (∀ (r : Reading) (a : AlarmRec), alarmOf r = some a →
       a.tsDay = r.tsDay ∧ a.tsHour = r.tsHour ∧ a.tsMinute = r.tsMinute ∧
       a.date = r.date ∧ a.stationId = r.stationId ∧ a.sensorId = r.sensorId ∧
       a.sensorName = r.sensorName ∧ a.value = r.value ∧ a.shift = r.shift ∧
       ((a.alarmType = "Low" ∧ (alarmThresholds r.sensorName).1 = some a.threshold ∧
           r.value < a.threshold) ∨
        (a.alarmType = "High" ∧ (alarmThresholds r.sensorName).2 = some a.threshold ∧
           r.value > a.threshold))) ∧
    (∀ r : Reading,
       ((∃ lo, (alarmThresholds r.sensorName).1 = some lo ∧ r.value < lo) ∨
        (∃ hi, (alarmThresholds r.sensorName).2 = some hi ∧ r.value > hi)) ↔
       (alarmOf r).isSome = true) ∧
    (∀ (rs : List Reading) (a : AlarmRec), a ∈ scadaBuildFactAlarms rs →
       ∃ r ∈ rs, a.tsDay = r.tsDay ∧ a.tsHour = r.tsHour ∧ a.tsMinute = r.tsMinute ∧
         a.stationId = r.stationId ∧ a.sensorId = r.sensorId ∧
         a.sensorName = r.sensorName ∧ a.value = r.value ∧ a.shift = r.shift ∧
         ((a.alarmType = "Low" ∧ (alarmThresholds r.sensorName).1 = some a.threshold ∧
             r.value < a.threshold) ∨
          (a.alarmType = "High" ∧ (alarmThresholds r.sensorName).2 = some a.threshold ∧
             r.value > a.threshold))) ∧
    (∀ (rs : List Reading) (r : Reading), r ∈ rs → (alarmOf r).isSome = true →
       ∃ a ∈ scadaBuildFactAlarms rs, a.value = r.value ∧ a.tsDay = r.tsDay ∧
         a.tsHour = r.tsHour ∧ a.tsMinute = r.tsMinute ∧ a.stationId = r.stationId ∧
         a.sensorId = r.sensorId ∧ a.sensorName = r.sensorName) := by
  refine ⟨fun r a ha => alarmOf_spec ha, ?_, ?_, ?_⟩
  · intro r
    constructor
    · rintro (⟨lo, hlo, hv⟩ | ⟨hi, hhi, hv⟩)
      · unfold alarmOf
        dsimp only
        rw [hlo]
        rcases hhi2 : (alarmThresholds r.sensorName).2 with _ | hi2 <;> dsimp only
        · rw [if_pos hv]
          rfl
        · rw [if_pos hv]
          rfl
      · unfold alarmOf
        dsimp only
        rw [hhi]
        rcases hlo2 : (alarmThresholds r.sensorName).1 with _ | lo2 <;> dsimp only
        · rw [if_pos hv]
          rfl
        · by_cases hvlo : r.value < lo2
          · rw [if_pos hvlo]
            rfl
          · rw [if_neg hvlo, if_pos hv]
            rfl
    · intro ho
      unfold alarmOf at ho
      dsimp only at ho
      rcases hlo : (alarmThresholds r.sensorName).1 with _ | lo <;>
        rcases hhi : (alarmThresholds r.sensorName).2 with _ | hi <;>
        rw [hlo, hhi] at ho <;> dsimp only at ho
      · simp at ho
      · split_ifs at ho with h1
        · exact Or.inr ⟨hi, rfl, h1⟩
        · simp at ho
      · split_ifs at ho with h1
        · exact Or.inl ⟨lo, rfl, h1⟩
        · simp at ho
      · split_ifs at ho with h1 h2
        · exact Or.inl ⟨lo, rfl, h1⟩
        · exact Or.inr ⟨hi, rfl, h2⟩
        · simp at ho
  · intro rs a ha
    unfold scadaBuildFactAlarms at ha
    rcases List.mem_map.mp ha with ⟨p, hp, hpa⟩
    have hpmem := snd_mem_of_mem_enum hp
    rcases List.mem_filterMap.mp hpmem with ⟨r, hr, hra⟩
    have hs := alarmOf_spec hra
    refine ⟨r, hr, ?_⟩
    rw [← hpa]
    exact ⟨hs.1, hs.2.1, hs.2.2.1, hs.2.2.2.2.1, hs.2.2.2.2.2.1, hs.2.2.2.2.2.2.1,
      hs.2.2.2.2.2.2.2.1, hs.2.2.2.2.2.2.2.2.1, hs.2.2.2.2.2.2.2.2.2⟩
  · intro rs r hr ho
    rcases Option.isSome_iff_exists.mp ho with ⟨b, hb⟩
    have hs := alarmOf_spec hb
    have hbm : b ∈ rs.filterMap alarmOf := List.mem_filterMap.mpr ⟨r, hr, hb⟩
    rcases exists_mem_enum_of_mem hbm with ⟨i, hi⟩
    refine ⟨{ b with alarmId := i + 1 }, ?_, ?_⟩
    · unfold scadaBuildFactAlarms
      exact List.mem_map.mpr ⟨(i, b), hi, rfl⟩
    · exact ⟨hs.2.2.2.2.2.2.2.1, hs.1, hs.2.1, hs.2.2.1, hs.2.2.2.2.1,
        hs.2.2.2.2.2.1, hs.2.2.2.2.2.2.1⟩

/-- A humidity reading of 20 %RH (below the configured low bound 30). -/
def readingLow : Reading :=
  ⟨0, 6, 0, 0, "STN-05", 19, "humidity", 20, "%RH", "Day"⟩

/-- C5 witness: the 20 %RH humidity reading breaches its low bound, an
alarm row is derived from the one-reading table, and it copies the
reading's fields. -/
theorem alarms_reference_breaching_readings_witness :
    (alarmOf readingLow).isSome = true ∧
    ∃ a ∈ scadaBuildFactAlarms [readingLow], a.value = readingLow.value ∧
      a.tsDay = readingLow.tsDay ∧ a.tsHour = readingLow.tsHour ∧
      a.tsMinute = readingLow.tsMinute ∧ a.stationId = readingLow.stationId ∧
      a.sensorId = readingLow.sensorId ∧ a.sensorName = readingLow.sensorName :=
  have ho : (alarmOf readingLow).isSome = true :=
    (alarms_reference_breaching_readings.2.1 readingLow).mp
      (Or.inl ⟨30, rfl, by norm_num [readingLow]⟩)
  ⟨ho, alarms_reference_breaching_readings.2.2.2 [readingLow] readingLow
    (List.mem_cons_self _ _) ho⟩

/-! ### C10: job-shop yield and quantity invariants -/

theorem pyInt_le_int {x : ℚ} {n : ℤ} (h : x ≤ n) : pyInt x ≤ n := by
  unfold pyInt
  split_ifs with hx
  · have h1 := Int.floor_mono h
    simpa using h1
  · exact Int.ceil_le.mpr h

theorem jsFpy_bounds (d e c : ℚ) : 85/100 ≤ jsFpy d e c ∧ jsFpy d e c ≤ 1 := by
  unfold jsFpy
  constructor
  · have e1 : ((850 : ℤ) : ℚ) / 1000 = 85/100 := by norm_num
    have h0 : (85/100 : ℚ) ≤ min 1 (max (85/100) (d * e * c)) :=
      le_min (by norm_num) (le_max_left _ _)
    have h2 := le_pyRound3 (n := 850) (x := min 1 (max (85/100) (d * e * c)))
      (by rw [e1]; exact h0)
    rw [e1] at h2
    exact h2
  · have h1 : min 1 (max (85/100) (d * e * c)) ≤ (1 : ℚ) := min_le_left _ _
    have h2 := pyRound3_le_int (n := 1) (by exact_mod_cast h1)
    exact_mod_cast h2

theorem jsQuantityGood_bounds (q : ℕ) (f : ℚ) (hq : 1 ≤ q) (hf : f ≤ 1) :
    1 ≤ jsQuantityGood q f ∧ jsQuantityGood q f ≤ (q : ℤ) := by
  unfold jsQuantityGood
  refine ⟨le_max_left _ _, max_le (by exact_mod_cast hq) ?_⟩
  apply pyInt_le_int
  have h : (q : ℚ) * f ≤ (q : ℚ) * 1 := mul_le_mul_of_nonneg_left hf (by positivity)
  push_cast
  simpa using h

theorem jsProdStep_bounds (ps : JSProdStreams) (mbt : String → List String)
    (opIds : List String) (opEff : String → ℚ) (job : JobOrder)
    (hq : 1 ≤ job.quantity) (prodId stepNum : ℕ) (mtype : String) (cursor : ℚ) :
    85/100 ≤ ((jsProdStep ps mbt opIds opEff job prodId stepNum mtype cursor).1).firstPassYield ∧
    ((jsProdStep ps mbt opIds opEff job prodId stepNum mtype cursor).1).firstPassYield ≤ 1 ∧
    1 ≤ ((jsProdStep ps mbt opIds opEff job prodId stepNum mtype cursor).1).quantityGood ∧
    ((jsProdStep ps mbt opIds opEff job prodId stepNum mtype cursor).1).quantityGood ≤
      (((jsProdStep ps mbt opIds opEff job prodId stepNum mtype cursor).1).quantityIn : ℤ) ∧
    1 ≤ ((jsProdStep ps mbt opIds opEff job prodId stepNum mtype cursor).1).quantityIn := by
  unfold jsProdStep
  dsimp only
  refine ⟨(jsFpy_bounds _ _ _).1, (jsFpy_bounds _ _ _).2, ?_, ?_, hq⟩
  · exact (jsQuantityGood_bounds _ _ hq (jsFpy_bounds _ _ _).2).1
  · exact (jsQuantityGood_bounds _ _ hq (jsFpy_bounds _ _ _).2).2

theorem jsJobRows_bounds (ps : JSProdStreams) (mbt : String → List String)
    (opIds : List String) (opEff : String → ℚ) (job : JobOrder)
    (hq : 1 ≤ job.quantity) :
    ∀ (steps : List String) (prodId stepNum : ℕ) (cursor : ℚ),
      ∀ r ∈ jsJobRows ps mbt opIds opEff job steps prodId stepNum cursor,
        85/100 ≤ r.firstPassYield ∧ r.firstPassYield ≤ 1 ∧
        1 ≤ r.quantityGood ∧ r.quantityGood ≤ (r.quantityIn : ℤ) ∧ 1 ≤ r.quantityIn := by
  intro steps
  induction steps with
  | nil =>
    intro prodId stepNum cursor r hr
    rw [jsJobRows] at hr
    cases hr
  | cons mtype rest ih =>
    intro prodId stepNum cursor r hr
    rw [jsJobRows] at hr
    rcases List.mem_cons.mp hr with h | h
    · subst h
      exact jsProdStep_bounds ps mbt opIds opEff job hq prodId stepNum mtype cursor
    · exact ih _ _ _ r h

theorem jsBuildFactProduction_bounds (ms : List DimMachine) (ops : List JSDimOperator)
    (ps : JSProdStreams) (jobs : List JobOrder) (hj : ∀ j ∈ jobs, 1 ≤ j.quantity) :
    ∀ r ∈ jsBuildFactProduction ms ops ps jobs,
      85/100 ≤ r.firstPassYield ∧ r.firstPassYield ≤ 1 ∧
      1 ≤ r.quantityGood ∧ r.quantityGood ≤ (r.quantityIn : ℤ) ∧ 1 ≤ r.quantityIn := by
  unfold jsBuildFactProduction
  dsimp only
  suffices h : ∀ (jobs' : List JobOrder) (acc : List JSProdRec × ℕ),
      (∀ j ∈ jobs', 1 ≤ j.quantity) →
      (∀ r ∈ acc.1, 85/100 ≤ r.firstPassYield ∧ r.firstPassYield ≤ 1 ∧
        1 ≤ r.quantityGood ∧ r.quantityGood ≤ (r.quantityIn : ℤ) ∧ 1 ≤ r.quantityIn) →
      ∀ r ∈ (jobs'.foldl (jsProdFoldStep ps
          (fun t => (ms.filter (fun m => m.machineType = t)).map (fun m => m.machineId))
          (ops.map (fun o => o.operatorId))
          (fun oid => ((ops.find? (fun o => o.operatorId = oid)).getD
            ⟨"", "", "", 0, 0, "", 0, 1⟩).efficiencyRating)) acc).1,
        85/100 ≤ r.firstPassYield ∧ r.firstPassYield ≤ 1 ∧
        1 ≤ r.quantityGood ∧ r.quantityGood ≤ (r.quantityIn : ℤ) ∧ 1 ≤ r.quantityIn by
    exact h jobs ([], 1) hj (by intro r hr; cases hr)
  intro jobs'
  induction jobs' with
  | nil =>
    intro acc h1 h2
    simpa using h2
  | cons job rest ih =>
    intro acc h1 h2 r hr
    rw [List.foldl_cons] at hr
    refine ih _ (fun j hj' => h1 j (List.mem_cons_of_mem _ hj')) ?_ r hr
    intro r' hr'
    unfold jsProdFoldStep at hr'
    rcases List.mem_append.mp hr' with h | h
    · exact h2 r' h
    · exact jsJobRows_bounds _ _ _ _ job (h1 job (List.mem_cons_self _ _)) _ _ _ _ r' h

theorem one_le_quantityChoice (k : ℕ) : 1 ≤ jsQuantityChoices.getD k 1 := by
  unfold jsQuantityChoices
  rcases k with _ | _ | _ | _ | _ | _ | k <;> simp [List.getD]

/-- C10: every job-shop production record has `first_pass_yield ∈
[0.85, 1]` and `1 ≤ quantity_good ≤ quantity_in` (job-order quantities are
drawn from `{1, 2, 5, 10, 20, 50}`, all ≥ 1), so each step reports at
least one good unit and derives at most `quantity_in − 1` quality
events. -/
theorem production_yield_quantity_invariant :
    (∀ d e c : ℚ, 85/100 ≤ jsFpy d e c ∧ jsFpy d e c ≤ 1) ∧
    (∀ (q : ℕ) (f : ℚ), 1 ≤ q → f ≤ 1 →
       1 ≤ jsQuantityGood q f ∧ jsQuantityGood q f ≤ (q : ℤ)) ∧
    (∀ (s : JSOrderStreams) (n : ℤ), ∀ j ∈ jsBuildFactJobOrders s n, 1 ≤ j.quantity) ∧
    (∀ (ms : List DimMachine) (ops : List JSDimOperator) (ps : JSProdStreams)
       (jobs : List JobOrder), (∀ j ∈ jobs, 1 ≤ j.quantity) →
       ∀ r ∈ jsBuildFactProduction ms ops ps jobs,
         85/100 ≤ r.firstPassYield ∧ r.firstPassYield ≤ 1 ∧
         1 ≤ r.quantityGood ∧ r.quantityGood ≤ (r.quantityIn : ℤ) ∧
         (jsDefectCount r : ℤ) ≤ (r.quantityIn : ℤ) - 1) := by
  refine ⟨jsFpy_bounds, jsQuantityGood_bounds, ?_, ?_⟩
  · intro s n j hj
    unfold jsBuildFactJobOrders at hj
    rcases List.mem_map.mp hj with ⟨i, _, hji⟩
    rw [← hji]
    exact one_le_quantityChoice _
  · intro ms ops ps jobs hjobs r hr
    have h := jsBuildFactProduction_bounds ms ops ps jobs hjobs r hr
    refine ⟨h.1, h.2.1, h.2.2.1, h.2.2.2.1, ?_⟩
    unfold jsDefectCount
    have h1 := h.2.2.1
    have h2 := h.2.2.2.1
    omega

/-- A concrete completed job order for five Motor Shafts. -/
def job0 : JobOrder :=
  ⟨1, "PRD-004", "Motor Shaft", "CUS-001", 0, 14, "Standard", 5, "Completed"⟩

/-- Machine dimension rows built from the fixed streams. -/
def jsDims0 : List DimMachine := jsBuildDimMachines jobShopStreams0.machines

/-- Operator dimension rows built from the fixed streams. -/
def jsOps0 : List JSDimOperator := jsBuildDimOperators jobShopStreams0.operators

/-- Fallback production record for total list indexing. -/
def jsProdRec0 : JSProdRec :=
  ⟨0, 0, "", "", "", 0, "", 0, "", 0, 0, 0, 0, 0, 0, 0, 0, 0, 0, 0⟩

/-- C10 witness: the first production step of a concrete five-unit Motor
Shaft job satisfies the yield and quantity bounds. -/
theorem production_yield_quantity_invariant_witness :
    85/100 ≤ ((jsBuildFactProduction jsDims0 jsOps0 jobShopStreams0.production
        [job0]).getD 0 jsProdRec0).firstPassYield ∧
    ((jsBuildFactProduction jsDims0 jsOps0 jobShopStreams0.production
        [job0]).getD 0 jsProdRec0).firstPassYield ≤ 1 ∧
    1 ≤ ((jsBuildFactProduction jsDims0 jsOps0 jobShopStreams0.production
        [job0]).getD 0 jsProdRec0).quantityGood ∧
    ((jsBuildFactProduction jsDims0 jsOps0 jobShopStreams0.production
        [job0]).getD 0 jsProdRec0).quantityGood ≤
      (((jsBuildFactProduction jsDims0 jsOps0 jobShopStreams0.production
        [job0]).getD 0 jsProdRec0).quantityIn : ℤ) := by
  have hq : ∀ j ∈ [job0], 1 ≤ j.quantity := by
    intro j hj
    rw [List.mem_singleton.mp hj]
    norm_num [job0]
  have hlen : (jsBuildFactProduction jsDims0 jsOps0 jobShopStreams0.production
      [job0]).length = 3 := by rfl
  have hmem : (jsBuildFactProduction jsDims0 jsOps0 jobShopStreams0.production
      [job0]).getD 0 jsProdRec0 ∈
      jsBuildFactProduction jsDims0 jsOps0 jobShopStreams0.production [job0] := by
    rcases hl : jsBuildFactProduction jsDims0 jsOps0 jobShopStreams0.production [job0]
        with _ | ⟨r, t⟩
    · rw [hl] at hlen
      cases hlen
    · simp [List.getD]
  have h := production_yield_quantity_invariant.2.2.2 jsDims0 jsOps0
    jobShopStreams0.production [job0] hq _ hmem
  exact ⟨h.1, h.2.1, h.2.2.1, h.2.2.2.1⟩

/-! ### C9: configuration misuse -/

/-- C9 (amended): `run` performs no configuration validation.  With a
zero or negative order count, `JobShopSimulator.run` returns normally —
the model is a total function, no error path exists — and the order,
production and quality fact tables are silently empty. -/
theorem run_no_validation (s : JobShopStreams) (n : ℤ) (hn : n ≤ 0) :
    (jobShopRunModel s n).factJobOrders = [] ∧
    (jobShopRunModel s n).factProduction = [] ∧
    (jobShopRunModel s n).factQuality = [] := by
  have ho : jsBuildFactJobOrders s.orders n = [] := by
    unfold jsBuildFactJobOrders
    have h0 : (max 0 n).toNat = 0 := by omega
    rw [h0]
    rfl
  refine ⟨ho, ?_, ?_⟩
  · show jsBuildFactProduction _ _ s.production (jsBuildFactJobOrders s.orders n) = []
    rw [ho]
    rfl
  · show jsBuildFactQuality s.quality
      (jsBuildFactProduction _ _ s.production (jsBuildFactJobOrders s.orders n)) = []
    rw [ho]
    rfl

/-- C9 witness: a negative order count yields empty fact tables without
any error. -/
theorem run_no_validation_witness :
    (jobShopRunModel jobShopStreams0 (-5)).factJobOrders = [] ∧
    (jobShopRunModel jobShopStreams0 (-5)).factProduction = [] ∧
    (jobShopRunModel jobShopStreams0 (-5)).factQuality = [] :=
  run_no_validation jobShopStreams0 (-5) (by norm_num)

/-- C9 counterexample: at order count 0 — a misused configuration the
claim says must fail fast with a descriptive configuration error — the
run instead returns a full table set whose dimension tables are populated
(18 machines) while the order, production and quality fact tables are
silently empty. -/
theorem run_returns_empty_tables_at_zero_orders :
    (jobShopRunModel jobShopStreams0 0).factJobOrders = [] ∧
    (jobShopRunModel jobShopStreams0 0).factProduction = [] ∧
    (jobShopRunModel jobShopStreams0 0).factQuality = [] ∧
    (jobShopRunModel jobShopStreams0 0).dimMachines.length = 18 :=
  ⟨rfl, rfl, rfl, rfl⟩

/-! ### C8: maintenance schedule -/

theorem scheduleAux_mem_ge (draws : ℕ → ℕ) :
    ∀ (fuel cursor i x : ℕ), x ∈ scheduleAux draws fuel cursor i → cursor ≤ x := by
  intro fuel
  induction fuel with
  | zero =>
    intro cursor i x hx
    rw [scheduleAux] at hx
    cases hx
  | succ fuel ih =>
    intro cursor i x hx
    rw [scheduleAux] at hx
    split_ifs at hx with h1 h2
    · rcases List.mem_append.mp hx with h | h
      · rw [List.mem_singleton] at h
        omega
      · have := ih _ _ _ h
        omega
    · rw [List.nil_append] at hx
      have := ih _ _ _ hx
      omega
    · cases hx

theorem scheduleAux_mem_workday (draws : ℕ → ℕ) :
    ∀ (fuel cursor i x : ℕ), x ∈ scheduleAux draws fuel cursor i →
      isWorkday x = true ∧ x ≤ simEndDay := by
  intro fuel
  induction fuel with
  | zero =>
    intro cursor i x hx
    rw [scheduleAux] at hx
    cases hx
  | succ fuel ih =>
    intro cursor i x hx
    rw [scheduleAux] at hx
    split_ifs at hx with h1 h2
    · rcases List.mem_append.mp hx with h | h
      · rw [List.mem_singleton] at h
        subst h
        exact ⟨h2, h1⟩
      · exact ih _ _ _ h
    · rw [List.nil_append] at hx
      exact ih _ _ _ hx
    · cases hx

theorem scheduleAux_chain (draws : ℕ → ℕ) (hd : ∀ i, 1 ≤ draws i) :
    ∀ (fuel cursor i : ℕ), (scheduleAux draws fuel cursor i).Chain' (· < ·) := by
  intro fuel
  induction fuel with
  | zero =>
    intro cursor i
    rw [scheduleAux]
    exact List.chain'_nil
  | succ fuel ih =>
    intro cursor i
    rw [scheduleAux]
    split_ifs with h1 h2
    · rw [List.singleton_append, List.chain'_cons']
      refine ⟨?_, ih _ _⟩
      intro y hy
      have hmem : y ∈ scheduleAux draws fuel (cursor + draws i) (i + 1) :=
        List.mem_of_mem_head? hy
      have h3 := scheduleAux_mem_ge draws _ _ _ _ hmem
      have h4 := hd i
      omega
    · rw [List.nil_append]
      exact ih _ _
    · exact List.chain'_nil

/-- C8 (amended): each per-station maintenance schedule is strictly
increasing, lies entirely on working days within the horizon, and is
computed by `scadaRunModel` before (and read by, not written by) every
later generation stage; order dates fall only on working days.  The
cursor advances by a randomized step of 18–24 *calendar* days, but a
candidate falling on a weekend is dropped rather than moved, so two
consecutive scheduled dates may be separated by more than one step. -/
theorem maintenance_schedule_spec :
    (∀ draws : ℕ → ℕ, (∀ i, 1 ≤ draws i) → (scheduleDates draws).Chain' (· < ·)) ∧
    (∀ (draws : ℕ → ℕ) (d : ℕ), d ∈ scheduleDates draws →
       isWorkday d = true ∧ d ≤ simEndDay) ∧
    (∀ (cd : ℕ → ℤ) (pp qq : ℕ → ℕ → ℕ), ∀ o ∈ scadaGenerateOrders cd pp qq,
       isWorkday o.date = true) ∧
    (∀ (tr : Transcend) (s : ScadaStreams),
       (scadaRunModel tr s).maintenanceDates = scadaMaintenanceAll s.maintDraw) := by
  refine ⟨?_, ?_, ?_, fun tr s => rfl⟩
  · intro draws hd
    exact scheduleAux_chain draws hd _ _ _
  · intro draws d hd
    exact scheduleAux_mem_workday draws _ _ _ _ hd
  · intro cd pp qq o ho
    unfold scadaGenerateOrders at ho
    rcases List.mem_map.mp ho with ⟨p, hp, hpo⟩
    have hp2 := snd_mem_of_mem_enum hp
    rcases List.mem_flatMap.mp hp2 with ⟨q, hq, hq2⟩
    have hday := snd_mem_of_mem_enum hq
    rcases List.mem_map.mp hq2 with ⟨u, _, hup⟩
    have hdate : o.date = q.2 := by rw [← hpo, ← hup]
    rw [hdate]
    unfold scadaWorkdays at hday
    exact (List.mem_filter.mp hday).2

/-- C8 witness: a draw stream with all steps ≥ 18 yields a strictly
increasing all-workday schedule, and every generated order date is a
workday. -/
theorem maintenance_schedule_spec_witness :
    (scheduleDates (fun _ => 18)).Chain' (· < ·) ∧
    (isWorkday 18 = true ∧ 18 ≤ simEndDay) ∧
    (scadaRunModel tr0 scadaStreams0).maintenanceDates =
      scadaMaintenanceAll scadaStreams0.maintDraw :=
  ⟨maintenance_schedule_spec.1 (fun _ => 18) (fun _ => by norm_num),
   maintenance_schedule_spec.2.1 (fun _ => 18) 18 (by decide),
   maintenance_schedule_spec.2.2.2 tr0 scadaStreams0⟩

/-- The counterexample draw stream: first offset 14 (∈ [14, 22)), then
steps 19 and 18 (∈ [18, 25)). -/
def gapDraws : ℕ → ℕ := fun i => if i = 0 then 14 else if i = 1 then 19 else 18

/-- C8 counterexample: with legal draws 14, 19, 18, … the schedule starts
at day 14 (a Monday); the next candidate, day 33, is a Saturday and is
*dropped*, so the second scheduled date is day 51 — 37 calendar days
(and 27 working days) after its predecessor, outside every configured
[min, max] interval ([18, 25) calendar days). -/
theorem maintenance_gap_exceeds_interval :
    gapDraws 0 = 14 ∧ gapDraws 1 = 19 ∧ gapDraws 2 = 18 ∧
    (scheduleDates gapDraws).take 2 = [14, 51] ∧
    51 - 14 = 37 ∧ ¬ ((37 : ℕ) ≤ 24) :=
  ⟨rfl, rfl, rfl, by decide, rfl, by decide⟩

/-! ### C4: counting helpers -/

theorem length_filter_enumMap {α β : Type} (l : List α) (f : ℕ × α → β) (q : β → Bool)
    (g : α → Bool) (hfg : ∀ i a, q (f (i, a)) = g a) :
    (((l.enum).map f).filter q).length = (l.filter g).length := by
  rw [← List.countP_eq_length_filter, ← List.countP_eq_length_filter, List.countP_map]
  suffices h : ∀ (n : ℕ), ((l.enumFrom n).countP (fun ip => q (f ip))) = l.countP g by
    exact h 0
  intro n
  induction l generalizing n with
  | nil => rfl
  | cons x t ih =>
    rw [show List.enumFrom n (x :: t) = (n, x) :: List.enumFrom (n + 1) t from rfl,
        List.countP_cons, ih (n + 1)]
    simp [hfg, List.countP_cons]

theorem countP_eq_sum_map {α : Type} (g : α → Bool) (l : List α) :
    l.countP g = (l.map (fun x => if g x then 1 else 0)).sum := by
  induction l with
  | nil => rfl
  | cons x t ih =>
    rw [List.countP_cons, List.map_cons, List.sum_cons, ih]
    omega

theorem sum_if_key {α : Type} (key : α → ℕ) (w : α → ℕ) {l : List α}
    (hnd : (l.map key).Nodup) {p : α} (hp : p ∈ l) :
    (l.map (fun x => if key x = key p then w x else 0)).sum = w p := by
  induction l with
  | nil => cases hp
  | cons x t ih =>
    rw [List.map_cons, List.sum_cons]
    rw [List.map_cons, List.nodup_cons] at hnd
    rcases List.mem_cons.mp hp with h | h
    · subst h
      rw [if_pos rfl]
      have ht : (t.map (fun x => if key x = key p then w x else 0)).sum = 0 := by
        apply List.sum_eq_zero
        intro z hz
        rcases List.mem_map.mp hz with ⟨y, hy, hyz⟩
        rw [← hyz, if_neg]
        intro hkey
        exact hnd.1 (hkey ▸ List.mem_map_of_mem key hy)
      omega
    · have hxk : ¬ (key x = key p) := by
        intro hk
        exact hnd.1 (hk ▸ List.mem_map_of_mem key h)
      rw [if_neg hxk, ih hnd.2 h]
      omega

theorem countP_flatMap {α β : Type} (l : List α) (f : α → List β) (q : β → Bool) :
    (l.flatMap f).countP q = (l.map (fun a => (f a).countP q)).sum := by
  induction l with
  | nil => rfl
  | cons x t ih =>
    rw [List.flatMap_cons, List.countP_append, List.map_cons, List.sum_cons, ih]

/-- The dense production ids assigned by the scada production builder are
pairwise distinct. -/
theorem scadaProduction_ids_nodup (tr : Transcend) (ps : ScadaProdStreams)
    (maint : String → List ℕ) (orders : List ScadaOrder) :
    ((scadaBuildFactProduction tr ps maint orders).map
      (fun p => p.productionId)).Nodup := by
  unfold scadaBuildFactProduction
  rw [List.map_map]
  show (((orders.enum.flatMap _).enum).map (fun ir => ir.1 + 1)).Nodup
  have h2 : (((orders.enum.flatMap (fun oo => scadaStations.enum.map (fun ss =>
      scadaProdRow tr ps maint oo.1 oo.2 ss.1 ss.2))).enum).map (fun ir => ir.1 + 1)) =
      (((orders.enum.flatMap (fun oo => scadaStations.enum.map (fun ss =>
      scadaProdRow tr ps maint oo.1 oo.2 ss.1 ss.2))).enum).map Prod.fst).map (· + 1) := by
    rw [List.map_map]
    rfl
  rw [h2, List.enum_map_fst]
  exact (List.nodup_range _).map (fun a b hab => by omega)

/-- Every scada quality event copies the keys of a failed parent row. -/
theorem scadaQuality_mem_spec {qs : ScadaQualityStreams} {prods : List ScadaProdRec}
    {e : ScadaQualityEvent} (he : e ∈ scadaBuildFactQualityEvents qs prods) :
    ∃ p ∈ prods, p.qualityResult = "Fail" ∧ e.productionId = p.productionId ∧
      e.orderId = p.orderId ∧ e.productId = p.productId ∧ e.stationId = p.stationId ∧
      e.operatorId = p.operatorId ∧ e.date = p.date ∧ e.shift = p.shift := by
  unfold scadaBuildFactQualityEvents at he
  rcases List.mem_map.mp he with ⟨ip, hip, hipe⟩
  have hmem := snd_mem_of_mem_enum hip
  have hf := List.mem_filter.mp hmem
  refine ⟨ip.2, hf.1, by simpa using hf.2, ?_, ?_, ?_, ?_, ?_, ?_, ?_⟩ <;> rw [← hipe]

/-- Every job-shop quality event copies the keys of a parent run with a
defective unit. -/
theorem jsQuality_mem_spec {qs : JSQualityStreams} {prods : List JSProdRec}
    {e : JSQualityEvent} (he : e ∈ jsBuildFactQuality qs prods) :
    ∃ p ∈ prods, p.quantityGood < (p.quantityIn : ℤ) ∧
      e.productionId = p.productionId ∧ e.jobOrderId = p.jobOrderId ∧
      e.productId = p.productId ∧ e.machineId = p.machineId ∧
      e.operatorId = p.operatorId ∧ e.date = p.date := by
  unfold jsBuildFactQuality at he
  rcases List.mem_map.mp he with ⟨ip, hip, hipe⟩
  have hmem := snd_mem_of_mem_enum hip
  rcases List.mem_flatMap.mp hmem with ⟨p, hp, hpe⟩
  rcases List.mem_map.mp hpe with ⟨k, hk, hkp⟩
  have hkr := List.mem_range.mp hk
  have hpos : 0 < jsDefectCount p := Nat.lt_of_le_of_lt (Nat.zero_le k) hkr
  have hlt : p.quantityGood < (p.quantityIn : ℤ) := by
    unfold jsDefectCount at hpos
    omega
  have hq : p = ip.2 := hkp
  refine ⟨p, hp, hlt, ?_, ?_, ?_, ?_, ?_, ?_⟩ <;> rw [← hipe, hq]

/-- C4: every quality event references exactly one parent production
record via `production_id`; the parent has a failing outcome
(`quality_result = "Fail"` in the scada engine, `quantity_good <
quantity_in` in the job shop); the event copies the parent's keys; and
per parent the number of events is one per failed scada record and
`quantity_in − quantity_good` (one per defective unit) per job-shop run.
The scada builder's dense production ids are pairwise distinct, grounding
the uniqueness hypothesis. -/
theorem quality_events_reference_failed_parents :
    (∀ (qs : ScadaQualityStreams) (prods : List ScadaProdRec),
       ∀ e ∈ scadaBuildFactQualityEvents qs prods,
         ∃ p ∈ prods, p.qualityResult = "Fail" ∧ e.productionId = p.productionId ∧
           e.orderId = p.orderId ∧ e.productId = p.productId ∧
           e.stationId = p.stationId ∧ e.operatorId = p.operatorId ∧
           e.date = p.date ∧ e.shift = p.shift) ∧
    (∀ (qs : ScadaQualityStreams) (prods : List ScadaProdRec),
       (prods.map (fun p => p.productionId)).Nodup →
       ∀ e ∈ scadaBuildFactQualityEvents qs prods,
         ∃! p, p ∈ prods ∧ p.productionId = e.productionId) ∧
    (∀ (qs : ScadaQualityStreams) (prods : List ScadaProdRec),
       (prods.map (fun p => p.productionId)).Nodup →
       ∀ p ∈ prods,
         ((scadaBuildFactQualityEvents qs prods).filter
           (fun e => e.productionId = p.productionId)).length =
         (if p.qualityResult = "Fail" then 1 else 0)) ∧
    (∀ (tr : Transcend) (ps : ScadaProdStreams) (maint : String → List ℕ)
       (orders : List ScadaOrder),
       ((scadaBuildFactProduction tr ps maint orders).map
         (fun p => p.productionId)).Nodup) ∧
    (∀ (qs : JSQualityStreams) (prods : List JSProdRec),
       ∀ e ∈ jsBuildFactQuality qs prods,
         ∃ p ∈ prods, p.quantityGood < (p.quantityIn : ℤ) ∧
           e.productionId = p.productionId ∧ e.jobOrderId = p.jobOrderId ∧
           e.productId = p.productId ∧ e.machineId = p.machineId ∧
           e.operatorId = p.operatorId ∧ e.date = p.date) ∧
    (∀ (qs : JSQualityStreams) (prods : List JSProdRec),
       (prods.map (fun p => p.productionId)).Nodup →
       ∀ p ∈ prods,
         ((jsBuildFactQuality qs prods).filter
           (fun e => e.productionId = p.productionId)).length = jsDefectCount p) := by
  refine ⟨fun qs prods e he => scadaQuality_mem_spec he, ?_, ?_,
    scadaProduction_ids_nodup, fun qs prods e he => jsQuality_mem_spec he, ?_⟩
  · intro qs prods hnd e he
    rcases scadaQuality_mem_spec he with ⟨p, hp, _, hid, _⟩
    refine ⟨p, ⟨hp, hid.symm⟩, ?_⟩
    rintro q ⟨hq, hqid⟩
    exact List.inj_on_of_nodup_map hnd hq hp (by rw [hqid, hid])
  · intro qs prods hnd p hp
    unfold scadaBuildFactQualityEvents
    rw [length_filter_enumMap _ _ _ (fun x => decide (x.productionId = p.productionId))
      (fun i a => rfl)]
    rw [← List.countP_eq_length_filter, List.countP_filter]
    rw [countP_eq_sum_map]
    have hmc : (prods.map (fun x =>
        if (decide (x.productionId = p.productionId) &&
            decide (x.qualityResult = "Fail")) = true then 1 else 0)) =
        (prods.map (fun x => if x.productionId = p.productionId then
          (if x.qualityResult = "Fail" then 1 else 0) else 0)) := by
      apply List.map_congr_left
      intro a _
      by_cases h1 : a.productionId = p.productionId <;>
        by_cases h2 : a.qualityResult = "Fail" <;> simp [h1, h2]
    rw [hmc, sum_if_key (fun x => x.productionId) (fun x =>
      if x.qualityResult = "Fail" then 1 else 0) hnd hp]
  · intro qs prods hnd p hp
    unfold jsBuildFactQuality
    rw [length_filter_enumMap _ _ _ (fun x => decide (x.productionId = p.productionId))
      (fun i a => rfl)]
    rw [← List.countP_eq_length_filter, countP_flatMap]
    have hmc : (prods.map (fun a => ((List.range (jsDefectCount a)).map
        (fun _ => a)).countP (fun x => decide (x.productionId = p.productionId)))) =
        (prods.map (fun x => if x.productionId = p.productionId then
          jsDefectCount x else 0)) := by
      apply List.map_congr_left
      intro a _
      rw [List.countP_map]
      by_cases h1 : a.productionId = p.productionId
      · rw [if_pos h1]
        simp [Function.comp_def, h1]
      · rw [if_neg h1]
        simp [Function.comp_def, h1]
    rw [hmc, sum_if_key (fun x => x.productionId) jsDefectCount hnd hp]

/-- A concrete failed scada production row. -/
def pFail : ScadaProdRec :=
  ⟨1, 1, "RA-100", "STN-01", "OPR-01", 0, "Day", "Standard",
   45, 5, 8, 58, 50, 29, 200, "Fail"⟩

/-- A concrete job-shop run with 5 units in and 3 good (2 defects). -/
def jpDefect : JSProdRec :=
  ⟨1, 1, "PRD-001", "MCH-001", "OPR-001", 1, "CNC Mill", 0, "Morning (6AM-2PM)",
   0, 100, 10, 45, 5, 60, 5, 3, 9/10, 80, 35⟩

/-- C4 witness: one event is derived from the one-row failed scada table,
and exactly `quantity_in − quantity_good = 2` events from the one-row
job-shop table. -/
theorem quality_events_reference_failed_parents_witness :
    ((scadaBuildFactQualityEvents scadaStreams0.quality [pFail]).filter
      (fun e => e.productionId = pFail.productionId)).length =
      (if pFail.qualityResult = "Fail" then 1 else 0) ∧
    ((jsBuildFactQuality jobShopStreams0.quality [jpDefect]).filter
      (fun e => e.productionId = jpDefect.productionId)).length = jsDefectCount jpDefect :=
  ⟨quality_events_reference_failed_parents.2.2.1 scadaStreams0.quality [pFail]
    (by simp) pFail (List.mem_cons_self _ _),
   quality_events_reference_failed_parents.2.2.2.2.2 jobShopStreams0.quality [jpDefect]
    (by simp) jpDefect (List.mem_cons_self _ _)⟩
